import Mathlib

/-!
Verification of the `tinygo-msgpack` MessagePack codec.

Shallow embedding conventions:
* Go bytes are `Nat` values kept below 256 by construction (stores reduce
  modulo 256, mirroring the `uint8` type of the buffer elements).
* Go `uint32` state (cursor offset, sizer length) is `Nat` reduced modulo
  `2^32` at every update, mirroring wrap-around arithmetic.
* Go `int64` values are `Int`; conversions such as `uint8(v)` are modelled
  with `Int.emod`/`Nat.mod` at the call sites where Go converts.
* `float32`/`float64` values are represented by their IEEE-754 bit patterns
  (`Nat` below `2^32`/`2^64`); `math.Float64bits`/`Float64frombits` are then
  the identity, which is exact for the bit-level claims considered here.
* Fallible operations return `Except Err α × DataReader` (Go returns
  `(value, error)` and mutates the receiver).
-/

namespace Msgpack

/-- `2^32`, the modulus of Go's `uint32` arithmetic. -/
def U32 : Nat := 4294967296

/-- Modelled from the spec: the MessagePack wire-format tag constants
(the formats file of the repository is not under `src/`; the values are
pinned by the spec's wire table and the upstream MessagePack layout). -/
def FormatNil : Nat := 0xc0

def FormatFalse : Nat := 0xc2

def FormatTrue : Nat := 0xc3

def FormatBin8 : Nat := 0xc4

def FormatBin16 : Nat := 0xc5

def FormatBin32 : Nat := 0xc6

def FormatExt8 : Nat := 0xc7

def FormatExt16 : Nat := 0xc8

def FormatExt32 : Nat := 0xc9

def FormatFloat32 : Nat := 0xca

def FormatFloat64 : Nat := 0xcb

def FormatUint8 : Nat := 0xcc

def FormatUint16 : Nat := 0xcd

def FormatUint32 : Nat := 0xce

def FormatUint64 : Nat := 0xcf

def FormatInt8 : Nat := 0xd0

def FormatInt16 : Nat := 0xd1

def FormatInt32 : Nat := 0xd2

def FormatInt64 : Nat := 0xd3

def FormatFixExt1 : Nat := 0xd4

def FormatFixExt2 : Nat := 0xd5

def FormatFixExt4 : Nat := 0xd6

def FormatFixExt8 : Nat := 0xd7

def FormatFixExt16 : Nat := 0xd8

def FormatString8 : Nat := 0xd9

def FormatString16 : Nat := 0xda

def FormatString32 : Nat := 0xdb

def FormatArray16 : Nat := 0xdc

def FormatArray32 : Nat := 0xdd

def FormatMap16 : Nat := 0xde

def FormatMap32 : Nat := 0xdf

def FormatNegativeFixInt : Nat := 0xe0

def FormatFixString : Nat := 0xa0

def FormatFixArray : Nat := 0x90

def FormatFixMap : Nat := 0x80

def FormatFourLeastSigBitsInByte : Nat := 0x0f

/-- Errors of the codec: `range` is `ErrRange`; `read msg` is `ReadError{msg}`. -/
inductive Err where
  | range
  | read (msg : String)
deriving DecidableEq

deriving instance DecidableEq for Except

/-- Big-endian byte list of the low `k` bytes of `m`
(`binary.BigEndian.PutUintN`). -/
def bePut : Nat → Nat → List Nat
  | 0, _ => []
  | k + 1, m => (m / 256 ^ k) % 256 :: bePut k m

/-- Big-endian value of a byte list (`binary.BigEndian.UintN`); each element
is reduced modulo 256, the typing invariant of Go's `byte`. -/
def beVal (bs : List Nat) : Nat := bs.foldl (fun acc b => acc * 256 + b % 256) 0

/-- The `k` bytes of `buf` starting at `off` (a Go slice `buf[off : off+k]`). -/
def readBytesAt (buf : List Nat) (off k : Nat) : List Nat := (buf.drop off).take k

/-- Overwrite `buf` with `src` starting at position `pos` (Go `copy`:
writes past the end of `buf` are dropped). -/
def writeAt : List Nat → Nat → List Nat → List Nat
  | buf, _, [] => buf
  | buf, pos, b :: rest => writeAt (buf.set pos b) (pos + 1) rest

/-- Reinterpret a `w`-bit unsigned value as a `w`-bit two's-complement signed
integer (Go's `intN(x)` conversion from `uintN`). -/
def toSigned (w : Nat) (v : Nat) : Int :=
  if v < 2 ^ (w - 1) then (v : Int) else (v : Int) - 2 ^ w

/-- `DataReader`: the buffer cursor with a byte offset and a latched error
(`src/encoder.go`, the `checkBufferSize` version). -/
structure DataReader where
  buffer : List Nat
  byteOffset : Nat
  err : Option Err
deriving DecidableEq

/-- `NewDataReader` starts at offset 0 with no latched error. -/
def NewDataReader (buffer : List Nat) : DataReader :=
  { buffer := buffer, byteOffset := 0, err := none }

/-- `checkBufferSize`: short-circuits on the latched error, otherwise checks
`byteOffset+length > uint32(len(buffer))` in `uint32` arithmetic and latches
`ErrRange` on failure. -/
def DataReader.checkBufferSize (d : DataReader) (length : Nat) :
    Option Err × DataReader :=
  match d.err with
  | some e => (some e, d)
  | none =>
    if (d.byteOffset + length) % U32 > d.buffer.length % U32 then
      (some Err.range, { d with err := some Err.range })
    else
      (none, d)

/-- `GetBytes` reads `length` bytes and advances. -/
def DataReader.GetBytes (d : DataReader) (length : Nat) :
    Except Err (List Nat) × DataReader :=
  match d.checkBufferSize length with
  | (some e, d1) => (.error e, d1)
  | (none, d1) =>
    (.ok (readBytesAt d1.buffer d1.byteOffset length),
     { d1 with byteOffset := (d1.byteOffset + length) % U32 })

/-- `SetBytes` copies `src` in at the current position and advances by
`uint32(len(src))`. -/
def DataReader.SetBytes (d : DataReader) (src : List Nat) :
    Option Err × DataReader :=
  match d.checkBufferSize (src.length % U32) with
  | (some e, d1) => (some e, d1)
  | (none, d1) =>
    (none,
      { d1 with
          buffer := writeAt d1.buffer d1.byteOffset src,
          byteOffset := (d1.byteOffset + src.length % U32) % U32 })

/-- `PeekUint8` reads one byte without advancing. -/
def DataReader.PeekUint8 (d : DataReader) : Except Err Nat × DataReader :=
  match d.checkBufferSize 1 with
  | (some e, d1) => (.error e, d1)
  | (none, d1) => (.ok (d1.buffer.getD d1.byteOffset 0), d1)

/-- `Discard` advances the position by `length` bytes. -/
def DataReader.Discard (d : DataReader) (length : Nat) :
    Option Err × DataReader :=
  match d.checkBufferSize length with
  | (some e, d1) => (some e, d1)
  | (none, d1) => (none, { d1 with byteOffset := (d1.byteOffset + length) % U32 })

/-- `GetFloat32` reads 4 big-endian bytes; the result is the IEEE bit pattern
(`math.Float32frombits` is the identity in this bit-level model). -/
def DataReader.GetFloat32 (d : DataReader) : Except Err Nat × DataReader :=
  match d.checkBufferSize 4 with
  | (some e, d1) => (.error e, d1)
  | (none, d1) =>
    (.ok (beVal (readBytesAt d1.buffer d1.byteOffset 4)),
     { d1 with byteOffset := (d1.byteOffset + 4) % U32 })

/-- `GetFloat64` reads 8 big-endian bytes as an IEEE bit pattern. -/
def DataReader.GetFloat64 (d : DataReader) : Except Err Nat × DataReader :=
  match d.checkBufferSize 8 with
  | (some e, d1) => (.error e, d1)
  | (none, d1) =>
    (.ok (beVal (readBytesAt d1.buffer d1.byteOffset 8)),
     { d1 with byteOffset := (d1.byteOffset + 8) % U32 })

/-- `GetInt8` reads one byte and reinterprets it as `int8`. -/
def DataReader.GetInt8 (d : DataReader) : Except Err Int × DataReader :=
  match d.checkBufferSize 1 with
  | (some e, d1) => (.error e, d1)
  | (none, d1) =>
    (.ok (toSigned 8 (d1.buffer.getD d1.byteOffset 0 % 256)),
     { d1 with byteOffset := (d1.byteOffset + 1) % U32 })

/-- `GetInt16` reads 2 big-endian bytes and reinterprets them as `int16`. -/
def DataReader.GetInt16 (d : DataReader) : Except Err Int × DataReader :=
  match d.checkBufferSize 2 with
  | (some e, d1) => (.error e, d1)
  | (none, d1) =>
    (.ok (toSigned 16 (beVal (readBytesAt d1.buffer d1.byteOffset 2))),
     { d1 with byteOffset := (d1.byteOffset + 2) % U32 })

/-- `GetInt32` reads 4 big-endian bytes and reinterprets them as `int32`. -/
def DataReader.GetInt32 (d : DataReader) : Except Err Int × DataReader :=
  match d.checkBufferSize 4 with
  | (some e, d1) => (.error e, d1)
  | (none, d1) =>
    (.ok (toSigned 32 (beVal (readBytesAt d1.buffer d1.byteOffset 4))),
     { d1 with byteOffset := (d1.byteOffset + 4) % U32 })

/-- `GetInt64` reads 8 big-endian bytes and reinterprets them as `int64`. -/
def DataReader.GetInt64 (d : DataReader) : Except Err Int × DataReader :=
  match d.checkBufferSize 8 with
  | (some e, d1) => (.error e, d1)
  | (none, d1) =>
    (.ok (toSigned 64 (beVal (readBytesAt d1.buffer d1.byteOffset 8))),
     { d1 with byteOffset := (d1.byteOffset + 8) % U32 })

/-- `GetUint8` reads one byte and advances. -/
def DataReader.GetUint8 (d : DataReader) : Except Err Nat × DataReader :=
  match d.checkBufferSize 1 with
  | (some e, d1) => (.error e, d1)
  | (none, d1) =>
    (.ok (d1.buffer.getD d1.byteOffset 0 % 256),
     { d1 with byteOffset := (d1.byteOffset + 1) % U32 })

/-- `GetUint16` reads 2 big-endian bytes. -/
def DataReader.GetUint16 (d : DataReader) : Except Err Nat × DataReader :=
  match d.checkBufferSize 2 with
  | (some e, d1) => (.error e, d1)
  | (none, d1) =>
    (.ok (beVal (readBytesAt d1.buffer d1.byteOffset 2)),
     { d1 with byteOffset := (d1.byteOffset + 2) % U32 })

/-- `GetUint32` reads 4 big-endian bytes. -/
def DataReader.GetUint32 (d : DataReader) : Except Err Nat × DataReader :=
  match d.checkBufferSize 4 with
  | (some e, d1) => (.error e, d1)
  | (none, d1) =>
    (.ok (beVal (readBytesAt d1.buffer d1.byteOffset 4)),
     { d1 with byteOffset := (d1.byteOffset + 4) % U32 })

/-- `GetUint64` reads 8 big-endian bytes. -/
def DataReader.GetUint64 (d : DataReader) : Except Err Nat × DataReader :=
  match d.checkBufferSize 8 with
  | (some e, d1) => (.error e, d1)
  | (none, d1) =>
    (.ok (beVal (readBytesAt d1.buffer d1.byteOffset 8)),
     { d1 with byteOffset := (d1.byteOffset + 8) % U32 })

/-- `SetFloat32` writes an IEEE-754 bit pattern as 4 big-endian bytes. -/
def DataReader.SetFloat32 (d : DataReader) (bits : Nat) :
    Option Err × DataReader :=
  match d.checkBufferSize 4 with
  | (some e, d1) => (some e, d1)
  | (none, d1) =>
    (none,
      { d1 with
          buffer := writeAt d1.buffer d1.byteOffset (bePut 4 bits),
          byteOffset := (d1.byteOffset + 4) % U32 })

/-- `SetFloat64` writes an IEEE-754 bit pattern as 8 big-endian bytes. -/
def DataReader.SetFloat64 (d : DataReader) (bits : Nat) :
    Option Err × DataReader :=
  match d.checkBufferSize 8 with
  | (some e, d1) => (some e, d1)
  | (none, d1) =>
    (none,
      { d1 with
          buffer := writeAt d1.buffer d1.byteOffset (bePut 8 bits),
          byteOffset := (d1.byteOffset + 8) % U32 })

/-- `SetInt8` stores `uint8(value)`. -/
def DataReader.SetInt8 (d : DataReader) (value : Int) :
    Option Err × DataReader :=
  match d.checkBufferSize 1 with
  | (some e, d1) => (some e, d1)
  | (none, d1) =>
    (none,
      { d1 with
          buffer := d1.buffer.set d1.byteOffset (value % 256).toNat,
          byteOffset := (d1.byteOffset + 1) % U32 })

/-- `SetInt16` stores `uint16(value)` big-endian. -/
def DataReader.SetInt16 (d : DataReader) (value : Int) :
    Option Err × DataReader :=
  match d.checkBufferSize 2 with
  | (some e, d1) => (some e, d1)
  | (none, d1) =>
    (none,
      { d1 with
          buffer := writeAt d1.buffer d1.byteOffset
            (bePut 2 (value % (2 ^ 16)).toNat),
          byteOffset := (d1.byteOffset + 2) % U32 })

/-- `SetInt32` stores `uint32(value)` big-endian. -/
def DataReader.SetInt32 (d : DataReader) (value : Int) :
    Option Err × DataReader :=
  match d.checkBufferSize 4 with
  | (some e, d1) => (some e, d1)
  | (none, d1) =>
    (none,
      { d1 with
          buffer := writeAt d1.buffer d1.byteOffset
            (bePut 4 (value % (2 ^ 32)).toNat),
          byteOffset := (d1.byteOffset + 4) % U32 })

/-- `SetInt64` stores `uint64(value)` big-endian. -/
def DataReader.SetInt64 (d : DataReader) (value : Int) :
    Option Err × DataReader :=
  match d.checkBufferSize 8 with
  | (some e, d1) => (some e, d1)
  | (none, d1) =>
    (none,
      { d1 with
          buffer := writeAt d1.buffer d1.byteOffset
            (bePut 8 (value % (2 ^ 64)).toNat),
          byteOffset := (d1.byteOffset + 8) % U32 })

/-- `SetUint8` stores one byte. -/
def DataReader.SetUint8 (d : DataReader) (value : Nat) :
    Option Err × DataReader :=
  match d.checkBufferSize 1 with
  | (some e, d1) => (some e, d1)
  | (none, d1) =>
    (none,
      { d1 with
          buffer := d1.buffer.set d1.byteOffset (value % 256),
          byteOffset := (d1.byteOffset + 1) % U32 })

/-- `SetUint16` stores 2 big-endian bytes. -/
def DataReader.SetUint16 (d : DataReader) (value : Nat) :
    Option Err × DataReader :=
  match d.checkBufferSize 2 with
  | (some e, d1) => (some e, d1)
  | (none, d1) =>
    (none,
      { d1 with
          buffer := writeAt d1.buffer d1.byteOffset (bePut 2 value),
          byteOffset := (d1.byteOffset + 2) % U32 })

/-- `SetUint32` stores 4 big-endian bytes. -/
def DataReader.SetUint32 (d : DataReader) (value : Nat) :
    Option Err × DataReader :=
  match d.checkBufferSize 4 with
  | (some e, d1) => (some e, d1)
  | (none, d1) =>
    (none,
      { d1 with
          buffer := writeAt d1.buffer d1.byteOffset (bePut 4 value),
          byteOffset := (d1.byteOffset + 4) % U32 })

/-- `SetUint64` stores 8 big-endian bytes. -/
def DataReader.SetUint64 (d : DataReader) (value : Nat) :
    Option Err × DataReader :=
  match d.checkBufferSize 8 with
  | (some e, d1) => (some e, d1)
  | (none, d1) =>
    (none,
      { d1 with
          buffer := writeAt d1.buffer d1.byteOffset (bePut 8 value),
          byteOffset := (d1.byteOffset + 8) % U32 })

/-- `Err` returns the latched error. -/
def DataReader.Err (d : DataReader) : Option Err := d.err

/-!
Encoder (`src/encoder.go`).  The Go `Encoder` is a struct holding one
`DataReader`; its methods ignore the error results of the `Set*` calls (they
latch in the reader), so each write is a plain state transformer.  Strings
are byte lists (`UnsafeBytes` is the identity on the byte content).
-/

/-- `Encoder.WriteNil` writes the nil tag. -/
def Encoder.WriteNil (e : DataReader) : DataReader :=
  (e.SetUint8 FormatNil).2

/-- `Encoder.WriteBool` writes the true/false tag. -/
def Encoder.WriteBool (e : DataReader) (value : Bool) : DataReader :=
  if value then (e.SetUint8 FormatTrue).2 else (e.SetUint8 FormatFalse).2

/-- `Encoder.WriteInt64`: narrowest of positive fixint, negative fixint,
int8/16/32/64.  `uint8(value)` is `(value % 256).toNat`. -/
def Encoder.WriteInt64 (e : DataReader) (value : Int) : DataReader :=
  if 0 ≤ value ∧ value < 2 ^ 7 then
    (e.SetUint8 (value % 256).toNat).2
  else if value < 0 ∧ -(2 ^ 5) ≤ value then
    (e.SetUint8 ((value % 256).toNat ||| FormatNegativeFixInt)).2
  else if value ≤ 127 ∧ -128 ≤ value then
    (((e.SetUint8 FormatInt8).2).SetInt8 value).2
  else if value ≤ 32767 ∧ -32768 ≤ value then
    (((e.SetUint8 FormatInt16).2).SetInt16 value).2
  else if value ≤ 2147483647 ∧ -2147483648 ≤ value then
    (((e.SetUint8 FormatInt32).2).SetInt32 value).2
  else
    (((e.SetUint8 FormatInt64).2).SetInt64 value).2

/-- `Encoder.WriteUint64`: narrowest of positive fixint, uint8/16/32/64. -/
def Encoder.WriteUint64 (e : DataReader) (value : Nat) : DataReader :=
  if value < 2 ^ 7 then
    (e.SetUint8 value).2
  else if value ≤ 255 then
    (((e.SetUint8 FormatUint8).2).SetUint8 value).2
  else if value ≤ 65535 then
    (((e.SetUint8 FormatUint16).2).SetUint16 value).2
  else if value ≤ 4294967295 then
    (((e.SetUint8 FormatUint32).2).SetUint32 value).2
  else
    (((e.SetUint8 FormatUint64).2).SetUint64 value).2

/-- `Encoder.WriteFloat32`: tag then the 4-byte bit pattern. -/
def Encoder.WriteFloat32 (e : DataReader) (bits : Nat) : DataReader :=
  (((e.SetUint8 FormatFloat32).2).SetFloat32 bits).2

/-- `Encoder.WriteFloat64`: tag then the 8-byte bit pattern. -/
def Encoder.WriteFloat64 (e : DataReader) (bits : Nat) : DataReader :=
  (((e.SetUint8 FormatFloat64).2).SetFloat64 bits).2

/-- `Encoder.writeStringLength`: fixstr `< 32`, str8 `≤ 255`,
str16 `≤ 65535`, else str32. -/
def Encoder.writeStringLength (e : DataReader) (length : Nat) : DataReader :=
  if length < 32 then
    (e.SetUint8 (length ||| FormatFixString)).2
  else if length ≤ 255 then
    (((e.SetUint8 FormatString8).2).SetUint8 length).2
  else if length ≤ 65535 then
    (((e.SetUint8 FormatString16).2).SetUint16 length).2
  else
    (((e.SetUint8 FormatString32).2).SetUint32 length).2

/-- `Encoder.WriteString`: length header then the payload bytes. -/
def Encoder.WriteString (e : DataReader) (value : List Nat) : DataReader :=
  ((Encoder.writeStringLength e (value.length % U32)).SetBytes value).2

/-- `Encoder.writeBinLength`: bin8 `≤ 255`, bin16 `≤ 65535`, else bin32. -/
def Encoder.writeBinLength (e : DataReader) (length : Nat) : DataReader :=
  if length ≤ 255 then
    (((e.SetUint8 FormatBin8).2).SetUint8 length).2
  else if length ≤ 65535 then
    (((e.SetUint8 FormatBin16).2).SetUint16 length).2
  else
    (((e.SetUint8 FormatBin32).2).SetUint32 length).2

/-- `Encoder.WriteByteArray`: a zero-length slice is written as the single
nil tag; otherwise the bin length header then the payload. -/
def Encoder.WriteByteArray (e : DataReader) (value : List Nat) : DataReader :=
  let valueLen := value.length % U32
  if valueLen = 0 then
    Encoder.WriteNil e
  else
    ((Encoder.writeBinLength e valueLen).SetBytes value).2

/-- `Encoder.WriteArraySize`: fixarray `< 16`, array16 `≤ 65535`, else
array32. -/
def Encoder.WriteArraySize (e : DataReader) (length : Nat) : DataReader :=
  if length < 16 then
    (e.SetUint8 (length ||| FormatFixArray)).2
  else if length ≤ 65535 then
    (((e.SetUint8 FormatArray16).2).SetUint16 length).2
  else
    (((e.SetUint8 FormatArray32).2).SetUint32 length).2

/-- `Encoder.WriteMapSize`: fixmap `< 16`, map16 `≤ 65535`, else map32. -/
def Encoder.WriteMapSize (e : DataReader) (length : Nat) : DataReader :=
  if length < 16 then
    (e.SetUint8 (length ||| FormatFixMap)).2
  else if length ≤ 65535 then
    (((e.SetUint8 FormatMap16).2).SetUint16 length).2
  else
    (((e.SetUint8 FormatMap32).2).SetUint32 length).2

/-!
Sizer (`src/sizer.go`): accumulates a `uint32` length without writing.
-/

/-- `Sizer`: the accumulated predicted length (`uint32`). -/
structure Sizer where
  length : Nat
deriving DecidableEq

/-- `NewSizer` starts at length 0. -/
def NewSizer : Sizer := { length := 0 }

/-- `Len` returns the accumulated length. -/
def Sizer.Len (s : Sizer) : Nat := s.length

/-- `Sizer.WriteNil` adds 1. -/
def Sizer.WriteNil (s : Sizer) : Sizer :=
  { length := (s.length + 1) % U32 }

/-- `Sizer.writeStringLength`: 1 / 2 / 3 / 5 header bytes. -/
def Sizer.writeStringLength (s : Sizer) (length : Nat) : Sizer :=
  if length < 32 then { length := (s.length + 1) % U32 }
  else if length ≤ 255 then { length := (s.length + 2) % U32 }
  else if length ≤ 65535 then { length := (s.length + 3) % U32 }
  else { length := (s.length + 5) % U32 }

/-- `Sizer.WriteString`: header plus payload length. -/
def Sizer.WriteString (s : Sizer) (value : List Nat) : Sizer :=
  let length := value.length % U32
  let s1 := s.writeStringLength length
  { length := (s1.length + length) % U32 }

/-- `Sizer.WriteBool` adds 1. -/
def Sizer.WriteBool (s : Sizer) (_value : Bool) : Sizer :=
  { length := (s.length + 1) % U32 }

/-- `Sizer.WriteArraySize`: 1 / 3 / 5 header bytes. -/
def Sizer.WriteArraySize (s : Sizer) (length : Nat) : Sizer :=
  if length < 16 then { length := (s.length + 1) % U32 }
  else if length ≤ 65535 then { length := (s.length + 3) % U32 }
  else { length := (s.length + 5) % U32 }

/-- `Sizer.writeBinLength`: note the strict `length < 255` bound for the
bin8 class (`length < math.MaxUint8` in the source). -/
def Sizer.writeBinLength (s : Sizer) (length : Nat) : Sizer :=
  if length < 255 then { length := (s.length + 1) % U32 }
  else if length ≤ 65535 then { length := (s.length + 2) % U32 }
  else { length := (s.length + 4) % U32 }

/-- `Sizer.WriteByteArray`: the zero-length case adds 2; otherwise the bin
length header plus `length + 1`. -/
def Sizer.WriteByteArray (s : Sizer) (value : List Nat) : Sizer :=
  let length := value.length % U32
  if length = 0 then
    { length := (s.length + 2) % U32 }
  else
    let s1 := s.writeBinLength length
    { length := (s1.length + ((length + 1) % U32)) % U32 }

/-- `Sizer.WriteMapSize`: 1 / 3 / 5 header bytes. -/
def Sizer.WriteMapSize (s : Sizer) (length : Nat) : Sizer :=
  if length < 16 then { length := (s.length + 1) % U32 }
  else if length ≤ 65535 then { length := (s.length + 3) % U32 }
  else { length := (s.length + 5) % U32 }

/-- `Sizer.WriteInt64`: 1 / 2 / 3 / 5 / 9 bytes by signed width class. -/
def Sizer.WriteInt64 (s : Sizer) (value : Int) : Sizer :=
  if -(2 ^ 5) ≤ value ∧ value < 2 ^ 7 then { length := (s.length + 1) % U32 }
  else if value < 2 ^ 7 ∧ -(2 ^ 7) ≤ value then { length := (s.length + 2) % U32 }
  else if value < 2 ^ 15 ∧ -(2 ^ 15) ≤ value then { length := (s.length + 3) % U32 }
  else if value < 2 ^ 31 ∧ -(2 ^ 31) ≤ value then { length := (s.length + 5) % U32 }
  else { length := (s.length + 9) % U32 }

/-- `Sizer.WriteUint64`: 1 / 2 / 3 / 5 / 9 bytes by unsigned width class. -/
def Sizer.WriteUint64 (s : Sizer) (value : Nat) : Sizer :=
  if value < 2 ^ 7 then { length := (s.length + 1) % U32 }
  else if value < 2 ^ 8 then { length := (s.length + 2) % U32 }
  else if value < 2 ^ 16 then { length := (s.length + 3) % U32 }
  else if value < 2 ^ 32 then { length := (s.length + 5) % U32 }
  else { length := (s.length + 9) % U32 }

/-- `Sizer.WriteFloat32` adds 5. -/
def Sizer.WriteFloat32 (s : Sizer) (_bits : Nat) : Sizer :=
  { length := (s.length + 5) % U32 }

/-- `Sizer.WriteFloat64` adds 9. -/
def Sizer.WriteFloat64 (s : Sizer) (_bits : Nat) : Sizer :=
  { length := (s.length + 9) % U32 }

/-- The closed set of runtime shapes `Sizer.WriteAny` dispatches on.  The Go
signed cases `int/int8/int16/int32/int64` all funnel into `WriteInt64` and
are collapsed into `vi64` (likewise `vu64` for the unsigned cases); the
typed-slice and map cases repeat the `varr` pattern per element type and are
not needed by any claim, so they are not modelled. -/
inductive SAny where
  | vnil
  | vbool (b : Bool)
  | vi64 (v : Int)
  | vu64 (v : Nat)
  | vf32 (bits : Nat)
  | vf64 (bits : Nat)
  | vstr (s : List Nat)
  | vbytes (b : List Nat)
  | varr (xs : List SAny)

/-- Go's `value == nil` test on the `any` argument. -/
def SAny.isNilVal : SAny → Bool
  | .vnil => true
  | _ => false

mutual

/-- `Sizer.WriteAny`: the `value == nil` check adds a nil size and then the
type switch runs as well, whose `nil` case adds a second nil size. -/
def Sizer.WriteAny (s : Sizer) (value : SAny) : Sizer :=
  let s1 := if value.isNilVal then s.WriteNil else s
  match value with
  | .vnil => s1.WriteNil
  | .vbool b => s1.WriteBool b
  | .vi64 v => s1.WriteInt64 v
  | .vu64 v => s1.WriteUint64 v
  | .vf32 bits => s1.WriteFloat32 bits
  | .vf64 bits => s1.WriteFloat64 bits
  | .vstr str => s1.WriteString str
  | .vbytes b => s1.WriteByteArray b
  | .varr xs => Sizer.writeAnyList (s1.WriteArraySize (xs.length % U32)) xs

/-- The element loop of the `[]any` case of `Sizer.WriteAny`. -/
def Sizer.writeAnyList (s : Sizer) (xs : List SAny) : Sizer :=
  match xs with
  | [] => s
  | x :: rest => Sizer.writeAnyList (s.WriteAny x) rest

end

/-!
Decoder (`src/unnamed/part_000`).  The Go `Decoder` is a struct holding one
`DataReader`; the reader state is threaded explicitly.
-/

/-- `isFixedInt`: the most significant bit is 0. -/
def isFixedInt (u : Nat) : Bool := u >>> 7 == 0

/-- `isNegativeFixedInt`: the three most significant bits are 111. -/
def isNegativeFixedInt (u : Nat) : Bool := u &&& 0xe0 == FormatNegativeFixInt

/-- `isFixedMap`: the four most significant bits are 1000. -/
def isFixedMap (u : Nat) : Bool := u &&& 0xf0 == FormatFixMap

/-- `isFixedArray`: the four most significant bits are 1001. -/
def isFixedArray (u : Nat) : Bool := u &&& 0xf0 == FormatFixArray

/-- `isFixedString`: the three most significant bits are 101. -/
def isFixedString (u : Nat) : Bool := u &&& 0xe0 == FormatFixString

/-- `Decoder.IsNextNil`: peek; on a nil tag consume it. -/
def Decoder.IsNextNil (d : DataReader) : Except Err Bool × DataReader :=
  match d.PeekUint8 with
  | (.error e, d1) => (.error e, d1)
  | (.ok tag, d1) =>
    if tag = FormatNil then (.ok true, (d1.Discard 1).2)
    else (.ok false, d1)

/-- `Decoder.ReadBool`: accepts exactly the true and false tags. -/
def Decoder.ReadBool (d : DataReader) : Except Err Bool × DataReader :=
  match d.GetUint8 with
  | (.error e, d1) => (.error e, d1)
  | (.ok tag, d1) =>
    if tag = FormatTrue then (.ok true, d1)
    else if tag = FormatFalse then (.ok false, d1)
    else (.error (Err.read "bad value for bool"), d1)

/-- `Decoder.ReadInt64`: positive/negative fixint and the four signed
widths; any other tag is a bad prefix. -/
def Decoder.ReadInt64 (d : DataReader) : Except Err Int × DataReader :=
  match d.GetUint8 with
  | (.error e, d1) => (.error e, d1)
  | (.ok tag, d1) =>
    if isFixedInt tag || isNegativeFixedInt tag then
      (.ok (toSigned 8 tag), d1)
    else if tag = FormatInt8 then
      match d1.GetInt8 with
      | (.error e, d2) => (.error e, d2)
      | (.ok v, d2) => (.ok v, d2)
    else if tag = FormatInt16 then
      match d1.GetInt16 with
      | (.error e, d2) => (.error e, d2)
      | (.ok v, d2) => (.ok v, d2)
    else if tag = FormatInt32 then
      match d1.GetInt32 with
      | (.error e, d2) => (.error e, d2)
      | (.ok v, d2) => (.ok v, d2)
    else if tag = FormatInt64 then
      match d1.GetInt64 with
      | (.error e, d2) => (.error e, d2)
      | (.ok v, d2) => (.ok v, d2)
    else
      (.error (Err.read "bad prefix for int64"), d1)

/-- `Decoder.ReadUint64`: positive fixint and the four unsigned widths;
a signed width is accepted only when its concrete value is non-negative;
negative fixint is always rejected. -/
def Decoder.ReadUint64 (d : DataReader) : Except Err Nat × DataReader :=
  match d.GetUint8 with
  | (.error e, d1) => (.error e, d1)
  | (.ok tag, d1) =>
    if isFixedInt tag then
      (.ok tag, d1)
    else if isNegativeFixedInt tag then
      if toSigned 8 tag < 0 then (.error (Err.read "bad prefix for uint"), d1)
      else (.ok (toSigned 8 tag).toNat, d1)
    else if tag = FormatUint8 then
      match d1.GetUint8 with
      | (.error e, d2) => (.error e, d2)
      | (.ok v, d2) => (.ok v, d2)
    else if tag = FormatUint16 then
      match d1.GetUint16 with
      | (.error e, d2) => (.error e, d2)
      | (.ok v, d2) => (.ok v, d2)
    else if tag = FormatUint32 then
      match d1.GetUint32 with
      | (.error e, d2) => (.error e, d2)
      | (.ok v, d2) => (.ok v, d2)
    else if tag = FormatUint64 then
      match d1.GetUint64 with
      | (.error e, d2) => (.error e, d2)
      | (.ok v, d2) => (.ok v, d2)
    else if tag = FormatInt8 then
      match d1.GetInt8 with
      | (.error e, d2) => (.error e, d2)
      | (.ok v, d2) =>
        if v < 0 then (.error (Err.read "bad prefix for uint"), d2)
        else (.ok v.toNat, d2)
    else if tag = FormatInt16 then
      match d1.GetInt16 with
      | (.error e, d2) => (.error e, d2)
      | (.ok v, d2) =>
        if v < 0 then (.error (Err.read "bad prefix for uint"), d2)
        else (.ok v.toNat, d2)
    else if tag = FormatInt32 then
      match d1.GetInt32 with
      | (.error e, d2) => (.error e, d2)
      | (.ok v, d2) =>
        if v < 0 then (.error (Err.read "bad prefix for uint"), d2)
        else (.ok v.toNat, d2)
    else if tag = FormatInt64 then
      match d1.GetInt64 with
      | (.error e, d2) => (.error e, d2)
      | (.ok v, d2) =>
        if v < 0 then (.error (Err.read "bad prefix for uint"), d2)
        else (.ok v.toNat, d2)
    else
      (.error (Err.read "bad prefix for uint"), d1)

/-- `Decoder.ReadFloat32`: accepts float32, and float64 narrowed.  In the
bit-pattern model the float64 case returns the 64-bit pattern (the Go
narrowing conversion is not bit-level and is irrelevant to the claims). -/
def Decoder.ReadFloat32 (d : DataReader) : Except Err Nat × DataReader :=
  match d.GetUint8 with
  | (.error e, d1) => (.error e, d1)
  | (.ok tag, d1) =>
    if tag = FormatFloat32 then d1.GetFloat32
    else if tag = FormatFloat64 then d1.GetFloat64
    else (.error (Err.read "bad prefix for float32"), d1)

/-- `Decoder.ReadFloat64`: accepts only float64. -/
def Decoder.ReadFloat64 (d : DataReader) : Except Err Nat × DataReader :=
  match d.GetUint8 with
  | (.error e, d1) => (.error e, d1)
  | (.ok tag, d1) =>
    if tag = FormatFloat64 then d1.GetFloat64
    else (.error (Err.read "bad prefix for float64"), d1)

/-- `Decoder.readStringLength`: fixstr, fixarray, str8, str16/array16,
str32/array32. -/
def Decoder.readStringLength (d : DataReader) : Except Err Nat × DataReader :=
  match d.GetUint8 with
  | (.error e, d1) => (.error e, d1)
  | (.ok tag, d1) =>
    if isFixedString tag then
      (.ok (tag &&& 0x1f), d1)
    else if isFixedArray tag then
      (.ok (tag &&& FormatFourLeastSigBitsInByte), d1)
    else if tag = FormatString8 then
      match d1.GetUint8 with
      | (.error e, d2) => (.error e, d2)
      | (.ok v, d2) => (.ok v, d2)
    else if tag = FormatString16 ∨ tag = FormatArray16 then
      match d1.GetUint16 with
      | (.error e, d2) => (.error e, d2)
      | (.ok v, d2) => (.ok v, d2)
    else if tag = FormatString32 ∨ tag = FormatArray32 then
      match d1.GetUint32 with
      | (.error e, d2) => (.error e, d2)
      | (.ok v, d2) => (.ok v, d2)
    else
      (.error (Err.read "bad prefix for string length"), d1)

/-- `Decoder.readString`: read `strLen` bytes (`UnsafeString` is the
identity on the byte content). -/
def Decoder.readString (d : DataReader) (strLen : Nat) :
    Except Err (List Nat) × DataReader :=
  match d.GetBytes strLen with
  | (.error e, d1) => (.error e, d1)
  | (.ok bs, d1) => (.ok bs, d1)

/-- `Decoder.ReadString`: length header then payload. -/
def Decoder.ReadString (d : DataReader) : Except Err (List Nat) × DataReader :=
  match Decoder.readStringLength d with
  | (.error e, d1) => (.error e, d1)
  | (.ok n, d1) => Decoder.readString d1 n

/-- `Decoder.readBinLength`: fixarray, nil (length 0), bin8/16/32; every
other tag — including array16 and array32 — is a bad prefix. -/
def Decoder.readBinLength (d : DataReader) : Except Err Nat × DataReader :=
  match d.GetUint8 with
  | (.error e, d1) => (.error e, d1)
  | (.ok tag, d1) =>
    if isFixedArray tag then
      (.ok (tag &&& FormatFourLeastSigBitsInByte), d1)
    else if tag = FormatNil then
      (.ok 0, d1)
    else if tag = FormatBin8 then
      match d1.GetUint8 with
      | (.error e, d2) => (.error e, d2)
      | (.ok v, d2) => (.ok v, d2)
    else if tag = FormatBin16 then
      match d1.GetUint16 with
      | (.error e, d2) => (.error e, d2)
      | (.ok v, d2) => (.ok v, d2)
    else if tag = FormatBin32 then
      match d1.GetUint32 with
      | (.error e, d2) => (.error e, d2)
      | (.ok v, d2) => (.ok v, d2)
    else
      (.error (Err.read "bad prefix for binary length"), d1)

/-- `Decoder.ReadByteArray`: bin length header then payload. -/
def Decoder.ReadByteArray (d : DataReader) :
    Except Err (List Nat) × DataReader :=
  match Decoder.readBinLength d with
  | (.error e, d1) => (.error e, d1)
  | (.ok n, d1) =>
    match d1.GetBytes n with
    | (.error e, d2) => (.error e, d2)
    | (.ok bs, d2) => (.ok bs, d2)

/-- `Decoder.getSize`: consume the lead byte and its payload bytes, and
return the number of child objects still to skip.  Discard errors for the
fixed-width and fixstr cases are ignored, exactly as in the source; note
the fixext1 case discards 1 byte. -/
def Decoder.getSize (d : DataReader) : Except Err Nat × DataReader :=
  match d.GetUint8 with
  | (.error e, d1) => (.error e, d1)
  | (.ok leadByte, d1) =>
    if isNegativeFixedInt leadByte || isFixedInt leadByte then
      (.ok 0, d1)
    else if isFixedString leadByte then
      (.ok 0, (d1.Discard (leadByte &&& 0x1f)).2)
    else if isFixedArray leadByte then
      (.ok (leadByte &&& FormatFourLeastSigBitsInByte), d1)
    else if isFixedMap leadByte then
      (.ok (2 * (leadByte &&& FormatFourLeastSigBitsInByte)), d1)
    else if leadByte = FormatNil ∨ leadByte = FormatTrue ∨ leadByte = FormatFalse then
      (.ok 0, d1)
    else if leadByte = FormatString8 ∨ leadByte = FormatBin8 then
      match d1.GetUint8 with
      | (.error e, d2) => (.error e, d2)
      | (.ok length, d2) =>
        match d2.Discard length with
        | (some e, d3) => (.error e, d3)
        | (none, d3) => (.ok 0, d3)
    else if leadByte = FormatString16 ∨ leadByte = FormatBin16 then
      match d1.GetUint16 with
      | (.error e, d2) => (.error e, d2)
      | (.ok length, d2) =>
        match d2.Discard length with
        | (some e, d3) => (.error e, d3)
        | (none, d3) => (.ok 0, d3)
    else if leadByte = FormatString32 ∨ leadByte = FormatBin32 then
      match d1.GetUint32 with
      | (.error e, d2) => (.error e, d2)
      | (.ok length, d2) =>
        match d2.Discard length with
        | (some e, d3) => (.error e, d3)
        | (none, d3) => (.ok 0, d3)
    else if leadByte = FormatFloat32 then (.ok 0, (d1.Discard 4).2)
    else if leadByte = FormatFloat64 then (.ok 0, (d1.Discard 8).2)
    else if leadByte = FormatUint8 ∨ leadByte = FormatInt8 then
      (.ok 0, (d1.Discard 1).2)
    else if leadByte = FormatUint16 ∨ leadByte = FormatInt16 then
      (.ok 0, (d1.Discard 2).2)
    else if leadByte = FormatUint32 ∨ leadByte = FormatInt32 then
      (.ok 0, (d1.Discard 4).2)
    else if leadByte = FormatUint64 ∨ leadByte = FormatInt64 then
      (.ok 0, (d1.Discard 8).2)
    else if leadByte = FormatFixExt1 then (.ok 0, (d1.Discard 1).2)
    else if leadByte = FormatFixExt2 then (.ok 0, (d1.Discard 3).2)
    else if leadByte = FormatFixExt4 then (.ok 0, (d1.Discard 5).2)
    else if leadByte = FormatFixExt8 then (.ok 0, (d1.Discard 9).2)
    else if leadByte = FormatFixExt16 then (.ok 0, (d1.Discard 17).2)
    else if leadByte = FormatArray16 then
      match d1.GetUint16 with
      | (.error e, d2) => (.error e, d2)
      | (.ok v, d2) => (.ok v, d2)
    else if leadByte = FormatArray32 then
      match d1.GetUint32 with
      | (.error e, d2) => (.error e, d2)
      | (.ok v, d2) => (.ok v, d2)
    else if leadByte = FormatMap16 then
      match d1.GetUint16 with
      | (.error e, d2) => (.error e, d2)
      | (.ok v, d2) => (.ok (2 * v), d2)
    else if leadByte = FormatMap32 then
      match d1.GetUint32 with
      | (.error e, d2) => (.error e, d2)
      | (.ok v, d2) => (.ok (2 * v), d2)
    else
      (.error (Err.read "bad prefix"), d1)

/-- The child loop of `Decoder.Skip`, abstracted over the recursive skip. -/
def Decoder.skipChildren (skip : DataReader → Except Err Unit × DataReader) :
    Nat → DataReader → Except Err Unit × DataReader
  | 0, d => (.ok (), d)
  | n + 1, d =>
    match skip d with
    | (.error e, d1) => (.error e, d1)
    | (.ok _, d1) => Decoder.skipChildren skip n d1

/-- `Decoder.Skip`: `getSize`, then recursively skip that many children.
Go's recursion is bounded by buffer progress; the embedding makes it total
with an explicit `fuel` bound that is irrelevant when large enough. -/
def Decoder.SkipF : Nat → DataReader → Except Err Unit × DataReader
  | 0, d => (.error (Err.read "out of fuel"), d)
  | fuel + 1, d =>
    match Decoder.getSize d with
    | (.error e, d1) => (.error e, d1)
    | (.ok n, d1) => Decoder.skipChildren (Decoder.SkipF fuel) n d1

/-- A fresh encoder/decoder state over an all-zero buffer of `n` bytes. -/
def freshReader (n : Nat) : DataReader := NewDataReader (List.replicate n 0)

/-- The buffer-level operations of `DataReader`, reified so that properties
quantifying over "every sequence of buffer operations" can be stated. -/
inductive DROp where
  | getBytesOp (length : Nat)
  | setBytesOp (src : List Nat)
  | peekUint8Op
  | discardOp (length : Nat)
  | getFloat32Op
  | getFloat64Op
  | getInt8Op
  | getInt16Op
  | getInt32Op
  | getInt64Op
  | getUint8Op
  | getUint16Op
  | getUint32Op
  | getUint64Op
  | setFloat32Op (bits : Nat)
  | setFloat64Op (bits : Nat)
  | setInt8Op (v : Int)
  | setInt16Op (v : Int)
  | setInt32Op (v : Int)
  | setInt64Op (v : Int)
  | setUint8Op (v : Nat)
  | setUint16Op (v : Nat)
  | setUint32Op (v : Nat)
  | setUint64Op (v : Nat)

/-- The error component of an `Except` result. -/
def errOf {A : Type} : Except Err A → Option Err
  | .error e => some e
  | .ok _ => none

/-- Run one reified operation, reporting its error (the `Except` results of
the `Get` operations are collapsed to their error component) and the new
cursor state. -/
def DROp.run1 : DROp → DataReader → Option Err × DataReader
  | .getBytesOp n, d => (errOf (d.GetBytes n).1, (d.GetBytes n).2)
  | .setBytesOp src, d => d.SetBytes src
  | .peekUint8Op, d => (errOf (d.PeekUint8).1, (d.PeekUint8).2)
  | .discardOp n, d => d.Discard n
  | .getFloat32Op, d => (errOf (d.GetFloat32).1, (d.GetFloat32).2)
  | .getFloat64Op, d => (errOf (d.GetFloat64).1, (d.GetFloat64).2)
  | .getInt8Op, d => (errOf (d.GetInt8).1, (d.GetInt8).2)
  | .getInt16Op, d => (errOf (d.GetInt16).1, (d.GetInt16).2)
  | .getInt32Op, d => (errOf (d.GetInt32).1, (d.GetInt32).2)
  | .getInt64Op, d => (errOf (d.GetInt64).1, (d.GetInt64).2)
  | .getUint8Op, d => (errOf (d.GetUint8).1, (d.GetUint8).2)
  | .getUint16Op, d => (errOf (d.GetUint16).1, (d.GetUint16).2)
  | .getUint32Op, d => (errOf (d.GetUint32).1, (d.GetUint32).2)
  | .getUint64Op, d => (errOf (d.GetUint64).1, (d.GetUint64).2)
  | .setFloat32Op b, d => d.SetFloat32 b
  | .setFloat64Op b, d => d.SetFloat64 b
  | .setInt8Op v, d => d.SetInt8 v
  | .setInt16Op v, d => d.SetInt16 v
  | .setInt32Op v, d => d.SetInt32 v
  | .setInt64Op v, d => d.SetInt64 v
  | .setUint8Op v, d => d.SetUint8 v
  | .setUint16Op v, d => d.SetUint16 v
  | .setUint32Op v, d => d.SetUint32 v
  | .setUint64Op v, d => d.SetUint64 v

/-- Run a sequence of reified operations, keeping only the cursor state. -/
def DROp.runOps (ops : List DROp) (d : DataReader) : DataReader :=
  ops.foldl (fun s op => (DROp.run1 op s).2) d

/-- The number of bytes the bounds check of each operation asks for. -/
def DROp.width : DROp → Nat
  | .getBytesOp n => n
  | .setBytesOp src => src.length % U32
  | .peekUint8Op => 1
  | .discardOp n => n
  | .getFloat32Op => 4
  | .getFloat64Op => 8
  | .getInt8Op => 1
  | .getInt16Op => 2
  | .getInt32Op => 4
  | .getInt64Op => 8
  | .getUint8Op => 1
  | .getUint16Op => 2
  | .getUint32Op => 4
  | .getUint64Op => 8
  | .setFloat32Op _ => 4
  | .setFloat64Op _ => 8
  | .setInt8Op _ => 1
  | .setInt16Op _ => 2
  | .setInt32Op _ => 4
  | .setInt64Op _ => 8
  | .setUint8Op _ => 1
  | .setUint16Op _ => 2
  | .setUint32Op _ => 4
  | .setUint64Op _ => 8

/-!  Basic facts about the byte-level helpers.  -/

theorem writeAt_length (src : List Nat) :
    ∀ (buf : List Nat) (pos : Nat), (writeAt buf pos src).length = buf.length := by
  induction src with
  | nil => intro buf pos; rfl
  | cons b rest ih =>
    intro buf pos
    simpa [writeAt] using ih (buf.set pos b) (pos + 1)

theorem getElem?_writeAt_lt (src : List Nat) :
    ∀ (buf : List Nat) (pos i : Nat), i < pos →
      (writeAt buf pos src)[i]? = buf[i]? := by
  induction src with
  | nil => intro buf pos i _; rfl
  | cons b rest ih =>
    intro buf pos i hi
    rw [writeAt, ih (buf.set pos b) (pos + 1) i (Nat.lt_succ_of_lt hi),
      List.getElem?_set_ne (by omega)]

theorem readBytesAt_writeAt (src : List Nat) :
    ∀ (buf : List Nat) (pos : Nat), pos + src.length ≤ buf.length →
      readBytesAt (writeAt buf pos src) pos src.length = src := by
  induction src with
  | nil => intro buf pos _; simp [readBytesAt, writeAt]
  | cons b rest ih =>
    intro buf pos h
    have hpos : pos < buf.length := by simp at h; omega
    have hlen : pos < (writeAt (buf.set pos b) (pos + 1) rest).length := by
      rw [writeAt_length]; simpa using hpos
    rw [writeAt, readBytesAt, List.drop_eq_getElem_cons hlen, List.length_cons,
      List.take_succ_cons]
    have hhead : (writeAt (buf.set pos b) (pos + 1) rest)[pos]? = some b := by
      rw [getElem?_writeAt_lt rest _ _ _ (Nat.lt_succ_self pos),
        List.getElem?_set_self hpos]
    have : (writeAt (buf.set pos b) (pos + 1) rest)[pos] = b := by
      have := List.getElem?_eq_getElem hlen
      rw [hhead] at this
      exact (Option.some_injective _ this.symm)
    rw [this]
    have htail := ih (buf.set pos b) (pos + 1) (by simp at h ⊢; omega)
    rw [readBytesAt] at htail
    rw [htail]

theorem getD_writeAt_lt (src : List Nat) (buf : List Nat) (pos i : Nat)
    (hi : i < pos) : (writeAt buf pos src).getD i 0 = buf.getD i 0 := by
  simp [List.getD_eq_getElem?_getD, getElem?_writeAt_lt src buf pos i hi]

theorem bePut_length (k m : Nat) : (bePut k m).length = k := by
  induction k generalizing m with
  | zero => rfl
  | succ k ih => simp [bePut, ih]

theorem beVal_aux (bs : List Nat) :
    ∀ a : Nat, bs.foldl (fun acc b => acc * 256 + b % 256) a
      = a * 256 ^ bs.length + beVal bs := by
  induction bs with
  | nil => intro a; simp [beVal]
  | cons b rest ih =>
    intro a
    rw [List.foldl_cons, ih (a * 256 + b % 256)]
    have hb : beVal (b :: rest) = b % 256 * 256 ^ rest.length + beVal rest := by
      rw [beVal, List.foldl_cons, ih (0 * 256 + b % 256)]
      simp [beVal]
    rw [hb, List.length_cons, pow_succ]
    ring

theorem beVal_bePut (k m : Nat) : beVal (bePut k m) = m % 256 ^ k := by
  induction k generalizing m with
  | zero => simp [bePut, beVal, Nat.mod_one]
  | succ k ih =>
    rw [bePut, beVal, List.foldl_cons, beVal_aux, bePut_length]
    rw [ih, Nat.pow_succ, Nat.mod_mul]
    have h : m / 256 ^ k % 256 % 256 = m / 256 ^ k % 256 :=
      Nat.mod_eq_of_lt (Nat.mod_lt _ (by omega))
    rw [h]
    ring

theorem toSigned_emod (w : Nat) (hw : 1 ≤ w) (v : Int)
    (h1 : -(2 ^ (w - 1)) ≤ v) (h2 : v < 2 ^ (w - 1)) :
    toSigned w (v % (2 ^ w)).toNat = v := by
  have hsplit : (2 : Int) ^ w = 2 ^ (w - 1) * 2 := by
    rw [← pow_succ]
    congr 1
    omega
  have hWpos : (0 : Int) < 2 ^ (w - 1) := by positivity
  rcases le_or_lt 0 v with hv | hv
  · have : v % (2 ^ w) = v := by
      apply Int.emod_eq_of_lt hv
      rw [hsplit]; nlinarith
    rw [this, toSigned]
    have hlt : v.toNat < 2 ^ (w - 1) := by
      have : ((2 : Int) ^ (w - 1)) = ((2 ^ (w - 1) : Nat) : Int) := by push_cast; ring
      omega
    simp [hlt]
    omega
  · have hval : v % (2 ^ w) = v + 2 ^ w := by
      have h0 : (v + 2 ^ w) % (2 ^ w) = v % (2 ^ w) := by
        have hm := @Int.add_mul_emod_self_left v ((2 : Int) ^ w) 1
        rwa [mul_one] at hm
      rw [← h0]
      apply Int.emod_eq_of_lt
      · rw [hsplit]; nlinarith
      · omega
    rw [hval, toSigned]
    have hcastW : ((2 ^ (w - 1) : Nat) : Int) = 2 ^ (w - 1) := by push_cast; ring
    have hcast2 : ((2 ^ w : Nat) : Int) = 2 ^ w := by push_cast; ring
    have hge : ¬ ((v + 2 ^ w).toNat < 2 ^ (w - 1)) := by
      rw [hsplit] at *
      omega
    simp only [hge, if_false]
    rw [hsplit] at *
    omega

/-!  Evaluation lemmas: each cursor operation on a healthy in-bounds state.  -/

theorem checkBufferSize_ok (buf : List Nat) (off k : Nat)
    (h : off + k ≤ buf.length) (hlen : buf.length < U32) :
    DataReader.checkBufferSize ⟨buf, off, none⟩ k = (none, ⟨buf, off, none⟩) := by
  rw [DataReader.checkBufferSize]
  have h1 : (off + k) % U32 = off + k := Nat.mod_eq_of_lt (by omega)
  have h2 : buf.length % U32 = buf.length := Nat.mod_eq_of_lt hlen
  simp only [h1, h2]
  rw [if_neg (by omega)]

theorem GetUint8_ok (buf : List Nat) (off : Nat)
    (h : off + 1 ≤ buf.length) (hlen : buf.length < U32) :
    DataReader.GetUint8 ⟨buf, off, none⟩
      = (.ok (buf.getD off 0 % 256), ⟨buf, off + 1, none⟩) := by
  rw [DataReader.GetUint8, checkBufferSize_ok buf off 1 h hlen]
  simp [Nat.mod_eq_of_lt (show off + 1 < U32 by omega)]

theorem GetUint16_ok (buf : List Nat) (off : Nat)
    (h : off + 2 ≤ buf.length) (hlen : buf.length < U32) :
    DataReader.GetUint16 ⟨buf, off, none⟩
      = (.ok (beVal (readBytesAt buf off 2)), ⟨buf, off + 2, none⟩) := by
  rw [DataReader.GetUint16, checkBufferSize_ok buf off 2 h hlen]
  simp [Nat.mod_eq_of_lt (show off + 2 < U32 by omega)]

theorem GetUint32_ok (buf : List Nat) (off : Nat)
    (h : off + 4 ≤ buf.length) (hlen : buf.length < U32) :
    DataReader.GetUint32 ⟨buf, off, none⟩
      = (.ok (beVal (readBytesAt buf off 4)), ⟨buf, off + 4, none⟩) := by
  rw [DataReader.GetUint32, checkBufferSize_ok buf off 4 h hlen]
  simp [Nat.mod_eq_of_lt (show off + 4 < U32 by omega)]

theorem GetUint64_ok (buf : List Nat) (off : Nat)
    (h : off + 8 ≤ buf.length) (hlen : buf.length < U32) :
    DataReader.GetUint64 ⟨buf, off, none⟩
      = (.ok (beVal (readBytesAt buf off 8)), ⟨buf, off + 8, none⟩) := by
  rw [DataReader.GetUint64, checkBufferSize_ok buf off 8 h hlen]
  simp [Nat.mod_eq_of_lt (show off + 8 < U32 by omega)]

theorem GetInt8_ok (buf : List Nat) (off : Nat)
    (h : off + 1 ≤ buf.length) (hlen : buf.length < U32) :
    DataReader.GetInt8 ⟨buf, off, none⟩
      = (.ok (toSigned 8 (buf.getD off 0 % 256)), ⟨buf, off + 1, none⟩) := by
  rw [DataReader.GetInt8, checkBufferSize_ok buf off 1 h hlen]
  simp [Nat.mod_eq_of_lt (show off + 1 < U32 by omega)]

theorem GetInt16_ok (buf : List Nat) (off : Nat)
    (h : off + 2 ≤ buf.length) (hlen : buf.length < U32) :
    DataReader.GetInt16 ⟨buf, off, none⟩
      = (.ok (toSigned 16 (beVal (readBytesAt buf off 2))), ⟨buf, off + 2, none⟩) := by
  rw [DataReader.GetInt16, checkBufferSize_ok buf off 2 h hlen]
  simp [Nat.mod_eq_of_lt (show off + 2 < U32 by omega)]

theorem GetInt32_ok (buf : List Nat) (off : Nat)
    (h : off + 4 ≤ buf.length) (hlen : buf.length < U32) :
    DataReader.GetInt32 ⟨buf, off, none⟩
      = (.ok (toSigned 32 (beVal (readBytesAt buf off 4))), ⟨buf, off + 4, none⟩) := by
  rw [DataReader.GetInt32, checkBufferSize_ok buf off 4 h hlen]
  simp [Nat.mod_eq_of_lt (show off + 4 < U32 by omega)]

theorem GetInt64_ok (buf : List Nat) (off : Nat)
    (h : off + 8 ≤ buf.length) (hlen : buf.length < U32) :
    DataReader.GetInt64 ⟨buf, off, none⟩
      = (.ok (toSigned 64 (beVal (readBytesAt buf off 8))), ⟨buf, off + 8, none⟩) := by
  rw [DataReader.GetInt64, checkBufferSize_ok buf off 8 h hlen]
  simp [Nat.mod_eq_of_lt (show off + 8 < U32 by omega)]

theorem GetFloat32_ok (buf : List Nat) (off : Nat)
    (h : off + 4 ≤ buf.length) (hlen : buf.length < U32) :
    DataReader.GetFloat32 ⟨buf, off, none⟩
      = (.ok (beVal (readBytesAt buf off 4)), ⟨buf, off + 4, none⟩) := by
  rw [DataReader.GetFloat32, checkBufferSize_ok buf off 4 h hlen]
  simp [Nat.mod_eq_of_lt (show off + 4 < U32 by omega)]

theorem GetFloat64_ok (buf : List Nat) (off : Nat)
    (h : off + 8 ≤ buf.length) (hlen : buf.length < U32) :
    DataReader.GetFloat64 ⟨buf, off, none⟩
      = (.ok (beVal (readBytesAt buf off 8)), ⟨buf, off + 8, none⟩) := by
  rw [DataReader.GetFloat64, checkBufferSize_ok buf off 8 h hlen]
  simp [Nat.mod_eq_of_lt (show off + 8 < U32 by omega)]

theorem GetBytes_ok (buf : List Nat) (off k : Nat)
    (h : off + k ≤ buf.length) (hlen : buf.length < U32) :
    DataReader.GetBytes ⟨buf, off, none⟩ k
      = (.ok (readBytesAt buf off k), ⟨buf, off + k, none⟩) := by
  rw [DataReader.GetBytes, checkBufferSize_ok buf off k h hlen]
  simp [Nat.mod_eq_of_lt (show off + k < U32 by omega)]

theorem Discard_ok (buf : List Nat) (off k : Nat)
    (h : off + k ≤ buf.length) (hlen : buf.length < U32) :
    DataReader.Discard ⟨buf, off, none⟩ k = (none, ⟨buf, off + k, none⟩) := by
  rw [DataReader.Discard, checkBufferSize_ok buf off k h hlen]
  simp [Nat.mod_eq_of_lt (show off + k < U32 by omega)]

theorem PeekUint8_ok (buf : List Nat) (off : Nat)
    (h : off + 1 ≤ buf.length) (hlen : buf.length < U32) :
    DataReader.PeekUint8 ⟨buf, off, none⟩
      = (.ok (buf.getD off 0), ⟨buf, off, none⟩) := by
  rw [DataReader.PeekUint8, checkBufferSize_ok buf off 1 h hlen]

theorem SetUint8_ok (buf : List Nat) (off v : Nat)
    (h : off + 1 ≤ buf.length) (hlen : buf.length < U32) :
    DataReader.SetUint8 ⟨buf, off, none⟩ v
      = (none, ⟨buf.set off (v % 256), off + 1, none⟩) := by
  rw [DataReader.SetUint8, checkBufferSize_ok buf off 1 h hlen]
  simp [Nat.mod_eq_of_lt (show off + 1 < U32 by omega)]

theorem SetUint16_ok (buf : List Nat) (off v : Nat)
    (h : off + 2 ≤ buf.length) (hlen : buf.length < U32) :
    DataReader.SetUint16 ⟨buf, off, none⟩ v
      = (none, ⟨writeAt buf off (bePut 2 v), off + 2, none⟩) := by
  rw [DataReader.SetUint16, checkBufferSize_ok buf off 2 h hlen]
  simp [Nat.mod_eq_of_lt (show off + 2 < U32 by omega)]

theorem SetUint32_ok (buf : List Nat) (off v : Nat)
    (h : off + 4 ≤ buf.length) (hlen : buf.length < U32) :
    DataReader.SetUint32 ⟨buf, off, none⟩ v
      = (none, ⟨writeAt buf off (bePut 4 v), off + 4, none⟩) := by
  rw [DataReader.SetUint32, checkBufferSize_ok buf off 4 h hlen]
  simp [Nat.mod_eq_of_lt (show off + 4 < U32 by omega)]

theorem SetUint64_ok (buf : List Nat) (off v : Nat)
    (h : off + 8 ≤ buf.length) (hlen : buf.length < U32) :
    DataReader.SetUint64 ⟨buf, off, none⟩ v
      = (none, ⟨writeAt buf off (bePut 8 v), off + 8, none⟩) := by
  rw [DataReader.SetUint64, checkBufferSize_ok buf off 8 h hlen]
  simp [Nat.mod_eq_of_lt (show off + 8 < U32 by omega)]

theorem SetInt8_ok (buf : List Nat) (off : Nat) (v : Int)
    (h : off + 1 ≤ buf.length) (hlen : buf.length < U32) :
    DataReader.SetInt8 ⟨buf, off, none⟩ v
      = (none, ⟨buf.set off (v % 256).toNat, off + 1, none⟩) := by
  rw [DataReader.SetInt8, checkBufferSize_ok buf off 1 h hlen]
  simp [Nat.mod_eq_of_lt (show off + 1 < U32 by omega)]

theorem SetInt16_ok (buf : List Nat) (off : Nat) (v : Int)
    (h : off + 2 ≤ buf.length) (hlen : buf.length < U32) :
    DataReader.SetInt16 ⟨buf, off, none⟩ v
      = (none, ⟨writeAt buf off (bePut 2 (v % (2 ^ 16)).toNat), off + 2, none⟩) := by
  rw [DataReader.SetInt16, checkBufferSize_ok buf off 2 h hlen]
  simp [Nat.mod_eq_of_lt (show off + 2 < U32 by omega)]

theorem SetInt32_ok (buf : List Nat) (off : Nat) (v : Int)
    (h : off + 4 ≤ buf.length) (hlen : buf.length < U32) :
    DataReader.SetInt32 ⟨buf, off, none⟩ v
      = (none, ⟨writeAt buf off (bePut 4 (v % (2 ^ 32)).toNat), off + 4, none⟩) := by
  rw [DataReader.SetInt32, checkBufferSize_ok buf off 4 h hlen]
  simp [Nat.mod_eq_of_lt (show off + 4 < U32 by omega)]

theorem SetInt64_ok (buf : List Nat) (off : Nat) (v : Int)
    (h : off + 8 ≤ buf.length) (hlen : buf.length < U32) :
    DataReader.SetInt64 ⟨buf, off, none⟩ v
      = (none, ⟨writeAt buf off (bePut 8 (v % (2 ^ 64)).toNat), off + 8, none⟩) := by
  rw [DataReader.SetInt64, checkBufferSize_ok buf off 8 h hlen]
  simp [Nat.mod_eq_of_lt (show off + 8 < U32 by omega)]

theorem SetFloat32_ok (buf : List Nat) (off v : Nat)
    (h : off + 4 ≤ buf.length) (hlen : buf.length < U32) :
    DataReader.SetFloat32 ⟨buf, off, none⟩ v
      = (none, ⟨writeAt buf off (bePut 4 v), off + 4, none⟩) := by
  rw [DataReader.SetFloat32, checkBufferSize_ok buf off 4 h hlen]
  simp [Nat.mod_eq_of_lt (show off + 4 < U32 by omega)]

theorem SetFloat64_ok (buf : List Nat) (off v : Nat)
    (h : off + 8 ≤ buf.length) (hlen : buf.length < U32) :
    DataReader.SetFloat64 ⟨buf, off, none⟩ v
      = (none, ⟨writeAt buf off (bePut 8 v), off + 8, none⟩) := by
  rw [DataReader.SetFloat64, checkBufferSize_ok buf off 8 h hlen]
  simp [Nat.mod_eq_of_lt (show off + 8 < U32 by omega)]

theorem SetBytes_ok (buf : List Nat) (off : Nat) (src : List Nat)
    (h : off + src.length ≤ buf.length) (hlen : buf.length < U32) :
    DataReader.SetBytes ⟨buf, off, none⟩ src
      = (none, ⟨writeAt buf off src, off + src.length, none⟩) := by
  have hsrc : src.length % U32 = src.length := Nat.mod_eq_of_lt (by omega)
  rw [DataReader.SetBytes]
  rw [hsrc, checkBufferSize_ok buf off src.length h hlen]
  simp [hsrc, Nat.mod_eq_of_lt (show off + src.length < U32 by omega)]

/-!  Behaviour of the reified buffer operations.  -/

theorem run1_latched (d : DataReader) (e : Err) (h : d.err = some e) (op : DROp) :
    DROp.run1 op d = (some e, d) := by
  obtain ⟨buf, off, err⟩ := d
  subst h
  cases op <;>
    simp [DROp.run1, errOf, DataReader.GetBytes, DataReader.SetBytes,
      DataReader.PeekUint8, DataReader.Discard, DataReader.GetFloat32, DataReader.GetFloat64,
      DataReader.GetInt8, DataReader.GetInt16, DataReader.GetInt32, DataReader.GetInt64,
      DataReader.GetUint8, DataReader.GetUint16, DataReader.GetUint32, DataReader.GetUint64,
      DataReader.SetFloat32, DataReader.SetFloat64, DataReader.SetInt8, DataReader.SetInt16,
      DataReader.SetInt32, DataReader.SetInt64, DataReader.SetUint8, DataReader.SetUint16,
      DataReader.SetUint32, DataReader.SetUint64, DataReader.checkBufferSize]

theorem run1_shape (op : DROp) (d : DataReader) :
    ((DROp.run1 op d).2).buffer.length = d.buffer.length ∧
    (((DROp.run1 op d).2).byteOffset = d.byteOffset ∨
      (((DROp.run1 op d).2).byteOffset = (d.byteOffset + DROp.width op) % U32 ∧
        (d.byteOffset + DROp.width op) % U32 ≤ d.buffer.length % U32)) := by
  obtain ⟨buf, off, err⟩ := d
  cases err with
  | some e =>
    cases op <;>
      simp [DROp.run1, DROp.width, errOf, DataReader.GetBytes, DataReader.SetBytes,
        DataReader.PeekUint8, DataReader.Discard, DataReader.GetFloat32, DataReader.GetFloat64,
        DataReader.GetInt8, DataReader.GetInt16, DataReader.GetInt32, DataReader.GetInt64,
        DataReader.GetUint8, DataReader.GetUint16, DataReader.GetUint32, DataReader.GetUint64,
        DataReader.SetFloat32, DataReader.SetFloat64, DataReader.SetInt8, DataReader.SetInt16,
        DataReader.SetInt32, DataReader.SetInt64, DataReader.SetUint8, DataReader.SetUint16,
        DataReader.SetUint32, DataReader.SetUint64, DataReader.checkBufferSize]
  | none =>
    cases op <;>
      (simp only [DROp.run1, DROp.width, errOf, DataReader.GetBytes, DataReader.SetBytes,
        DataReader.PeekUint8, DataReader.Discard, DataReader.GetFloat32, DataReader.GetFloat64,
        DataReader.GetInt8, DataReader.GetInt16, DataReader.GetInt32, DataReader.GetInt64,
        DataReader.GetUint8, DataReader.GetUint16, DataReader.GetUint32, DataReader.GetUint64,
        DataReader.SetFloat32, DataReader.SetFloat64, DataReader.SetInt8, DataReader.SetInt16,
        DataReader.SetInt32, DataReader.SetInt64, DataReader.SetUint8, DataReader.SetUint16,
        DataReader.SetUint32, DataReader.SetUint64, DataReader.checkBufferSize] <;>
       split_ifs <;>
       simp_all [writeAt_length])

/-!  The claims.  -/

/-- C1 (code bug): at payload length exactly 255 the encoder and the sizer
disagree: `Encoder.WriteByteArray` picks the bin-8 class (first byte `0xc4`)
and advances 257 bytes with no error, while `Sizer.WriteByteArray` predicts
258 bytes (a bin-16 header), so the sizer's prediction differs from the
bytes actually written. -/
theorem C1_sizer_encoder_divergence_at_255 :
    (Encoder.WriteByteArray (NewDataReader (List.replicate 258 0))
        (List.replicate 255 7)).byteOffset = 257 ∧
    (Encoder.WriteByteArray (NewDataReader (List.replicate 258 0))
        (List.replicate 255 7)).buffer.getD 0 0 = FormatBin8 ∧
    (Encoder.WriteByteArray (NewDataReader (List.replicate 258 0))
        (List.replicate 255 7)).err = none ∧
    ((NewSizer).WriteByteArray (List.replicate 255 7)).Len = 258 := by
  refine ⟨?_, ?_, ?_, ?_⟩ <;> (set_option maxRecDepth 4000 in decide)

/-- C2 (code bug): `Encoder.WriteByteArray` of an empty slice emits the
single nil byte `0xc0` and advances 1 byte — not the two bytes `0xc4 0x00`
the claim (and the matching sizer, which adds 2) requires. -/
theorem C2_empty_byte_array_writes_nil :
    (Encoder.WriteByteArray (NewDataReader [0, 0]) []).buffer = [FormatNil, 0] ∧
    (Encoder.WriteByteArray (NewDataReader [0, 0]) []).byteOffset = 1 ∧
    ((NewSizer).WriteByteArray []).Len = 2 := by
  decide

/-- C4 (code bug): `Skip` over the complete 3-byte fixext1 value
`d4 01 ab` succeeds but advances the offset by only 2, leaving the payload
byte unconsumed (the matching fixext2 case advances correctly by 4 over a
4-byte value); and `Skip` over a well-formed ext-8 value `c7 01 00 ab`
returns the bad-prefix error. -/
theorem C4_skip_fixext1_and_ext8 :
    (Decoder.SkipF 10 (NewDataReader [FormatFixExt1, 1, 0xab])).1 = Except.ok () ∧
    (Decoder.SkipF 10 (NewDataReader [FormatFixExt1, 1, 0xab])).2.byteOffset = 2 ∧
    (Decoder.SkipF 10 (NewDataReader [FormatFixExt2, 1, 0xab, 0xcd])).2.byteOffset = 4 ∧
    (Decoder.SkipF 10 (NewDataReader [FormatExt8, 1, 0, 0xab])).1
      = Except.error (Err.read "bad prefix") := by
  decide

/-- C8: once the latched error of a `DataReader` is non-nil, every buffer
operation returns that same error with the state unchanged, every sequence
of operations leaves the state unchanged, and `Err` stays that error. -/
theorem C8_latched_error_sticky (d : DataReader) (e : Err) (h : d.err = some e) :
    (∀ op : DROp, DROp.run1 op d = (some e, d)) ∧
    (∀ ops : List DROp, DROp.runOps ops d = d) ∧
    (∀ ops : List DROp, (DROp.runOps ops d).Err = some e) := by
  have h1 : ∀ op : DROp, DROp.run1 op d = (some e, d) := run1_latched d e h
  have h2 : ∀ ops : List DROp, DROp.runOps ops d = d := by
    intro ops
    induction ops with
    | nil => rfl
    | cons op rest ih =>
      show DROp.runOps (op :: rest) d = d
      rw [DROp.runOps, List.foldl_cons, h1 op]
      exact ih
  exact ⟨h1, h2, fun ops => by rw [h2 ops]; exact h⟩

/-- Witness for C8 at a concrete latched state. -/
theorem C8_latched_error_sticky_witness :
    DROp.run1 DROp.peekUint8Op ⟨[1, 2], 1, some Err.range⟩
      = (some Err.range, ⟨[1, 2], 1, some Err.range⟩) ∧
    DROp.runOps [DROp.discardOp 1, DROp.getUint8Op] ⟨[1, 2], 1, some Err.range⟩
      = ⟨[1, 2], 1, some Err.range⟩ := by
  have h := C8_latched_error_sticky ⟨[1, 2], 1, some Err.range⟩ Err.range rfl
  exact ⟨h.1 _, h.2.1 _⟩

/-- C9 (counterexample): the claim fails for overflowing `Discard`
arguments: on a 10-byte buffer, after `Discard 5` the offset is 5, and
`Discard 4294967295` then *succeeds* (no error) while wrapping the offset
backwards to 4 — the offset decreases. -/
theorem C9_counterexample_offset_wraps_backwards :
    (((NewDataReader (List.replicate 10 0)).Discard 5).2).byteOffset = 5 ∧
    ((((NewDataReader (List.replicate 10 0)).Discard 5).2).Discard 4294967295).1 = none ∧
    ((((NewDataReader (List.replicate 10 0)).Discard 5).2).Discard 4294967295).2.byteOffset
      = 4 := by
  decide

theorem runOps_bounded (ops : List DROp) :
    ∀ d : DataReader, d.byteOffset ≤ d.buffer.length →
      (DROp.runOps ops d).byteOffset ≤ (DROp.runOps ops d).buffer.length := by
  induction ops with
  | nil => intro d h; exact h
  | cons op rest ih =>
    intro d h
    have hs := run1_shape op d
    set d1 := (DROp.run1 op d).2 with hd1
    have hrun : DROp.runOps (op :: rest) d = DROp.runOps rest d1 := by
      rw [DROp.runOps, List.foldl_cons]; rfl
    rw [hrun]
    apply ih
    rcases hs.2 with hA | ⟨hB, hBle⟩
    · rw [hA, hs.1]; exact h
    · rw [hB, hs.1]
      exact Nat.le_trans hBle (Nat.mod_le _ _)

theorem runOps_monotone_of_no_wrap :
    ∀ (ops : List DROp) (d : DataReader),
      2 * d.buffer.length < U32 →
      d.byteOffset ≤ d.buffer.length →
      (∀ op ∈ ops, DROp.width op ≤ d.buffer.length) →
      d.byteOffset ≤ (DROp.runOps ops d).byteOffset := by
  intro ops
  induction ops with
  | nil => intro d _ _ _; exact Nat.le_refl _
  | cons op rest ih =>
    intro d h1 h2 h3
    have hs := run1_shape op d
    set d1 := (DROp.run1 op d).2 with hd1
    have hlen1 : d1.buffer.length = d.buffer.length := hs.1
    have hw : DROp.width op ≤ d.buffer.length := h3 op (by simp)
    have hoff1 : d.byteOffset ≤ d1.byteOffset ∧ d1.byteOffset ≤ d.buffer.length := by
      rcases hs.2 with hA | ⟨hB, hBle⟩
      · exact ⟨by rw [hA], by rw [hA]; exact h2⟩
      · have hnowrap : d.byteOffset + DROp.width op < U32 := by omega
        rw [Nat.mod_eq_of_lt hnowrap] at hB hBle
        rw [Nat.mod_eq_of_lt (by omega : d.buffer.length < U32)] at hBle
        exact ⟨by omega, by omega⟩
    have hrest := ih d1 (by rw [hlen1]; exact h1) (by rw [hlen1]; exact hoff1.2)
      (fun o ho => by rw [hlen1]; exact h3 o (by simp [ho]))
    have hrun : DROp.runOps (op :: rest) d = DROp.runOps rest d1 := by
      rw [DROp.runOps, List.foldl_cons]; rfl
    rw [hrun]
    exact Nat.le_trans hoff1.1 hrest

/-- C9 (amended): across every sequence of buffer operations the offset
never exceeds the buffer length — unconditionally, overflowing arguments
included, both from a fresh reader and from any state whose offset is in
bounds (a successful bounds check compares `(offset+width) mod 2^32`
against `uint32(len)`, so even a wrapped landing point stays in bounds,
and a failed operation leaves the offset unchanged); and the offset never
*decreases* only provided the `uint32` additions cannot wrap — here: every
operation's requested width is at most the buffer length and the buffer is
shorter than `2^31` bytes. (The unamended monotonicity fails for wrapping
arguments, see the counterexample.) -/
theorem C9_offset_monotone_and_bounded (ops : List DROp) (d : DataReader)
    (buf : List Nat) :
    ((DROp.runOps ops (NewDataReader buf)).byteOffset
      ≤ (DROp.runOps ops (NewDataReader buf)).buffer.length) ∧
    (d.byteOffset ≤ d.buffer.length →
      (DROp.runOps ops d).byteOffset ≤ (DROp.runOps ops d).buffer.length) ∧
    (2 * d.buffer.length < U32 →
      d.byteOffset ≤ d.buffer.length →
      (∀ op ∈ ops, DROp.width op ≤ d.buffer.length) →
      d.byteOffset ≤ (DROp.runOps ops d).byteOffset) :=
  ⟨runOps_bounded ops (NewDataReader buf) (Nat.zero_le _),
    runOps_bounded ops d,
    fun h1 h2 h3 => runOps_monotone_of_no_wrap ops d h1 h2 h3⟩

/-- Witness for C9 (amended) at concrete operation sequences: the bound
holds even across the wrapping `Discard 4294967295`, and a no-wrap
sequence never moves the offset backwards. -/
theorem C9_offset_monotone_and_bounded_witness :
    ((DROp.runOps [DROp.discardOp 5, DROp.discardOp 4294967295]
        (NewDataReader (List.replicate 10 0))).byteOffset
      ≤ (DROp.runOps [DROp.discardOp 5, DROp.discardOp 4294967295]
          (NewDataReader (List.replicate 10 0))).buffer.length) ∧
    ((DROp.runOps [DROp.discardOp 5, DROp.discardOp 4294967295]
        ⟨List.replicate 10 0, 2, none⟩).byteOffset
      ≤ (DROp.runOps [DROp.discardOp 5, DROp.discardOp 4294967295]
          ⟨List.replicate 10 0, 2, none⟩).buffer.length) ∧
    2 ≤ (DROp.runOps [DROp.discardOp 3, DROp.getUint8Op]
          ⟨List.replicate 10 0, 2, none⟩).byteOffset := by
  have h1 := C9_offset_monotone_and_bounded
    [DROp.discardOp 5, DROp.discardOp 4294967295]
    ⟨List.replicate 10 0, 2, none⟩ (List.replicate 10 0)
  have h2 := C9_offset_monotone_and_bounded
    [DROp.discardOp 3, DROp.getUint8Op]
    ⟨List.replicate 10 0, 2, none⟩ (List.replicate 10 0)
  exact ⟨h1.1, h1.2.1 (by decide), h2.2.2 (by decide) (by decide) (by decide)⟩

/-- C10: `Sizer.WriteAny` of a nil value accumulates the nil size twice —
`Len` grows by exactly 2, not by the 1 byte `Encoder.WriteNil` actually
emits for a nil. -/
theorem C10_sizer_writeany_nil_counts_two :
    (∀ s : Sizer, (s.WriteAny SAny.vnil).Len = (s.Len + 2) % U32) ∧
    ((NewSizer).WriteAny SAny.vnil).Len = 2 ∧
    (Encoder.WriteNil (freshReader 2)).byteOffset = 1 := by
  refine ⟨?_, by decide, by decide⟩
  intro s
  rw [Sizer.WriteAny]
  simp only [SAny.isNilVal, if_true]
  simp [Sizer.WriteNil, Sizer.Len, U32]

theorem isFixedInt_iff (t : Nat) : isFixedInt t = true ↔ t < 128 := by
  simp [isFixedInt, Nat.shiftRight_eq_div_pow]
  omega

set_option maxRecDepth 2000 in
theorem isNegativeFixedInt_iff : ∀ t < 256, (isNegativeFixedInt t = true ↔ 224 ≤ t) := by
  decide

/-- C6: `ReadInt64` returns the decoded value for exactly positive fixint,
negative fixint and the four signed widths and a bad-prefix error for every
other tag; `ReadUint64` returns the decoded value for positive fixint, the
four unsigned widths and any signed width whose value is non-negative, and
a bad-prefix error for negative fixint, for negative signed values and for
every other tag. -/
theorem C6_integer_read_acceptance (tag p0 p1 p2 p3 p4 p5 p6 p7 : Nat)
    (htag : tag < 256) :
    (tag < 128 →
      (Decoder.ReadInt64 (NewDataReader [tag, p0, p1, p2, p3, p4, p5, p6, p7])).1 = .ok (toSigned 8 tag)) ∧
    (224 ≤ tag →
      (Decoder.ReadInt64 (NewDataReader [tag, p0, p1, p2, p3, p4, p5, p6, p7])).1 = .ok (toSigned 8 tag)) ∧
    (tag = FormatInt8 →
      (Decoder.ReadInt64 (NewDataReader [tag, p0, p1, p2, p3, p4, p5, p6, p7])).1 = .ok (toSigned 8 (beVal [p0]))) ∧
    (tag = FormatInt16 →
      (Decoder.ReadInt64 (NewDataReader [tag, p0, p1, p2, p3, p4, p5, p6, p7])).1 = .ok (toSigned 16 (beVal [p0, p1]))) ∧
    (tag = FormatInt32 →
      (Decoder.ReadInt64 (NewDataReader [tag, p0, p1, p2, p3, p4, p5, p6, p7])).1 = .ok (toSigned 32 (beVal [p0, p1, p2, p3]))) ∧
    (tag = FormatInt64 →
      (Decoder.ReadInt64 (NewDataReader [tag, p0, p1, p2, p3, p4, p5, p6, p7])).1 = .ok (toSigned 64 (beVal [p0, p1, p2, p3, p4, p5, p6, p7]))) ∧
    (¬ tag < 128 → ¬ 224 ≤ tag →
      tag ∉ ([FormatInt8, FormatInt16, FormatInt32, FormatInt64] : List Nat) →
      (Decoder.ReadInt64 (NewDataReader [tag, p0, p1, p2, p3, p4, p5, p6, p7])).1 = .error (Err.read "bad prefix for int64")) ∧
    (tag < 128 →
      (Decoder.ReadUint64 (NewDataReader [tag, p0, p1, p2, p3, p4, p5, p6, p7])).1 = .ok tag) ∧
    (224 ≤ tag →
      (Decoder.ReadUint64 (NewDataReader [tag, p0, p1, p2, p3, p4, p5, p6, p7])).1 = .error (Err.read "bad prefix for uint")) ∧
    (tag = FormatUint8 →
      (Decoder.ReadUint64 (NewDataReader [tag, p0, p1, p2, p3, p4, p5, p6, p7])).1 = .ok (beVal [p0])) ∧
    (tag = FormatUint16 →
      (Decoder.ReadUint64 (NewDataReader [tag, p0, p1, p2, p3, p4, p5, p6, p7])).1 = .ok (beVal [p0, p1])) ∧
    (tag = FormatUint32 →
      (Decoder.ReadUint64 (NewDataReader [tag, p0, p1, p2, p3, p4, p5, p6, p7])).1 = .ok (beVal [p0, p1, p2, p3])) ∧
    (tag = FormatUint64 →
      (Decoder.ReadUint64 (NewDataReader [tag, p0, p1, p2, p3, p4, p5, p6, p7])).1 = .ok (beVal [p0, p1, p2, p3, p4, p5, p6, p7])) ∧
    (tag = FormatInt8 → 0 ≤ toSigned 8 (beVal [p0]) →
      (Decoder.ReadUint64 (NewDataReader [tag, p0, p1, p2, p3, p4, p5, p6, p7])).1 = .ok (toSigned 8 (beVal [p0])).toNat) ∧
    (tag = FormatInt8 → toSigned 8 (beVal [p0]) < 0 →
      (Decoder.ReadUint64 (NewDataReader [tag, p0, p1, p2, p3, p4, p5, p6, p7])).1 = .error (Err.read "bad prefix for uint")) ∧
    (tag = FormatInt16 → 0 ≤ toSigned 16 (beVal [p0, p1]) →
      (Decoder.ReadUint64 (NewDataReader [tag, p0, p1, p2, p3, p4, p5, p6, p7])).1 = .ok (toSigned 16 (beVal [p0, p1])).toNat) ∧
    (tag = FormatInt16 → toSigned 16 (beVal [p0, p1]) < 0 →
      (Decoder.ReadUint64 (NewDataReader [tag, p0, p1, p2, p3, p4, p5, p6, p7])).1 = .error (Err.read "bad prefix for uint")) ∧
    (tag = FormatInt32 → 0 ≤ toSigned 32 (beVal [p0, p1, p2, p3]) →
      (Decoder.ReadUint64 (NewDataReader [tag, p0, p1, p2, p3, p4, p5, p6, p7])).1 = .ok (toSigned 32 (beVal [p0, p1, p2, p3])).toNat) ∧
    (tag = FormatInt32 → toSigned 32 (beVal [p0, p1, p2, p3]) < 0 →
      (Decoder.ReadUint64 (NewDataReader [tag, p0, p1, p2, p3, p4, p5, p6, p7])).1 = .error (Err.read "bad prefix for uint")) ∧
    (tag = FormatInt64 → 0 ≤ toSigned 64 (beVal [p0, p1, p2, p3, p4, p5, p6, p7]) →
      (Decoder.ReadUint64 (NewDataReader [tag, p0, p1, p2, p3, p4, p5, p6, p7])).1 = .ok (toSigned 64 (beVal [p0, p1, p2, p3, p4, p5, p6, p7])).toNat) ∧
    (tag = FormatInt64 → toSigned 64 (beVal [p0, p1, p2, p3, p4, p5, p6, p7]) < 0 →
      (Decoder.ReadUint64 (NewDataReader [tag, p0, p1, p2, p3, p4, p5, p6, p7])).1 = .error (Err.read "bad prefix for uint")) ∧
    (¬ tag < 128 → ¬ 224 ≤ tag →
      tag ∉ ([FormatUint8, FormatUint16, FormatUint32, FormatUint64,
              FormatInt8, FormatInt16, FormatInt32, FormatInt64] : List Nat) →
      (Decoder.ReadUint64 (NewDataReader [tag, p0, p1, p2, p3, p4, p5, p6, p7])).1 = .error (Err.read "bad prefix for uint")) := by
  refine ⟨?_, ?_, ?_, ?_, ?_, ?_, ?_, ?_, ?_, ?_, ?_, ?_, ?_, ?_, ?_, ?_, ?_, ?_, ?_, ?_, ?_, ?_⟩
  · intro h1
    simp [Decoder.ReadInt64, NewDataReader, DataReader.GetUint8,
      DataReader.checkBufferSize, U32, List.getD, Nat.mod_eq_of_lt htag,
      (isFixedInt_iff tag).mpr h1]
  · intro h1
    simp [Decoder.ReadInt64, NewDataReader, DataReader.GetUint8,
      DataReader.checkBufferSize, U32, List.getD, Nat.mod_eq_of_lt htag,
      (isNegativeFixedInt_iff tag htag).mpr h1]
  · intro hc; subst hc
    have hget : DataReader.GetUint8 (NewDataReader [FormatInt8, p0, p1, p2, p3, p4, p5, p6, p7])
        = (.ok FormatInt8, ⟨[FormatInt8, p0, p1, p2, p3, p4, p5, p6, p7], 1, none⟩) := by
      rw [show NewDataReader [FormatInt8, p0, p1, p2, p3, p4, p5, p6, p7]
          = ⟨[FormatInt8, p0, p1, p2, p3, p4, p5, p6, p7], 0, none⟩ from rfl,
        GetUint8_ok _ 0 (by simp) (by simp [U32])]
      simp only [List.getD_cons_zero, Nat.zero_add]
      norm_num [FormatInt8]
    have hread : DataReader.GetInt8 ⟨[FormatInt8, p0, p1, p2, p3, p4, p5, p6, p7], 1, none⟩
        = (.ok (toSigned 8 (beVal [p0])), ⟨[FormatInt8, p0, p1, p2, p3, p4, p5, p6, p7], 2, none⟩) := by
      rw [GetInt8_ok _ 1 (by simp) (by simp [U32])]
      simp [beVal, List.getD]
    rw [Decoder.ReadInt64]
    simp only [hget, hread,
      (show isFixedInt FormatInt8 = false from by decide),
      (show isNegativeFixedInt FormatInt8 = false from by decide),
      Bool.false_eq_true, Bool.or_self, if_false, if_true, eq_self_iff_true]
  · intro hc; subst hc
    have hget : DataReader.GetUint8 (NewDataReader [FormatInt16, p0, p1, p2, p3, p4, p5, p6, p7])
        = (.ok FormatInt16, ⟨[FormatInt16, p0, p1, p2, p3, p4, p5, p6, p7], 1, none⟩) := by
      rw [show NewDataReader [FormatInt16, p0, p1, p2, p3, p4, p5, p6, p7]
          = ⟨[FormatInt16, p0, p1, p2, p3, p4, p5, p6, p7], 0, none⟩ from rfl,
        GetUint8_ok _ 0 (by simp) (by simp [U32])]
      simp only [List.getD_cons_zero, Nat.zero_add]
      norm_num [FormatInt16]
    have hread : DataReader.GetInt16 ⟨[FormatInt16, p0, p1, p2, p3, p4, p5, p6, p7], 1, none⟩
        = (.ok (toSigned 16 (beVal [p0, p1])), ⟨[FormatInt16, p0, p1, p2, p3, p4, p5, p6, p7], 3, none⟩) := by
      rw [GetInt16_ok _ 1 (by simp) (by simp [U32])]
      rw [show readBytesAt [FormatInt16, p0, p1, p2, p3, p4, p5, p6, p7] 1 2
          = [p0, p1] from rfl]
    rw [Decoder.ReadInt64]
    simp only [hget, hread,
      (show isFixedInt FormatInt16 = false from by decide),
      (show isNegativeFixedInt FormatInt16 = false from by decide),
      (show ¬ (FormatInt16 = FormatInt8) from by decide),
      Bool.false_eq_true, Bool.or_self, if_false, if_true, eq_self_iff_true]
  · intro hc; subst hc
    have hget : DataReader.GetUint8 (NewDataReader [FormatInt32, p0, p1, p2, p3, p4, p5, p6, p7])
        = (.ok FormatInt32, ⟨[FormatInt32, p0, p1, p2, p3, p4, p5, p6, p7], 1, none⟩) := by
      rw [show NewDataReader [FormatInt32, p0, p1, p2, p3, p4, p5, p6, p7]
          = ⟨[FormatInt32, p0, p1, p2, p3, p4, p5, p6, p7], 0, none⟩ from rfl,
        GetUint8_ok _ 0 (by simp) (by simp [U32])]
      simp only [List.getD_cons_zero, Nat.zero_add]
      norm_num [FormatInt32]
    have hread : DataReader.GetInt32 ⟨[FormatInt32, p0, p1, p2, p3, p4, p5, p6, p7], 1, none⟩
        = (.ok (toSigned 32 (beVal [p0, p1, p2, p3])), ⟨[FormatInt32, p0, p1, p2, p3, p4, p5, p6, p7], 5, none⟩) := by
      rw [GetInt32_ok _ 1 (by simp) (by simp [U32])]
      rw [show readBytesAt [FormatInt32, p0, p1, p2, p3, p4, p5, p6, p7] 1 4
          = [p0, p1, p2, p3] from rfl]
    rw [Decoder.ReadInt64]
    simp only [hget, hread,
      (show isFixedInt FormatInt32 = false from by decide),
      (show isNegativeFixedInt FormatInt32 = false from by decide),
      (show ¬ (FormatInt32 = FormatInt8) from by decide),
      (show ¬ (FormatInt32 = FormatInt16) from by decide),
      Bool.false_eq_true, Bool.or_self, if_false, if_true, eq_self_iff_true]
  · intro hc; subst hc
    have hget : DataReader.GetUint8 (NewDataReader [FormatInt64, p0, p1, p2, p3, p4, p5, p6, p7])
        = (.ok FormatInt64, ⟨[FormatInt64, p0, p1, p2, p3, p4, p5, p6, p7], 1, none⟩) := by
      rw [show NewDataReader [FormatInt64, p0, p1, p2, p3, p4, p5, p6, p7]
          = ⟨[FormatInt64, p0, p1, p2, p3, p4, p5, p6, p7], 0, none⟩ from rfl,
        GetUint8_ok _ 0 (by simp) (by simp [U32])]
      simp only [List.getD_cons_zero, Nat.zero_add]
      norm_num [FormatInt64]
    have hread : DataReader.GetInt64 ⟨[FormatInt64, p0, p1, p2, p3, p4, p5, p6, p7], 1, none⟩
        = (.ok (toSigned 64 (beVal [p0, p1, p2, p3, p4, p5, p6, p7])), ⟨[FormatInt64, p0, p1, p2, p3, p4, p5, p6, p7], 9, none⟩) := by
      rw [GetInt64_ok _ 1 (by simp) (by simp [U32])]
      rw [show readBytesAt [FormatInt64, p0, p1, p2, p3, p4, p5, p6, p7] 1 8
          = [p0, p1, p2, p3, p4, p5, p6, p7] from rfl]
    rw [Decoder.ReadInt64]
    simp only [hget, hread,
      (show isFixedInt FormatInt64 = false from by decide),
      (show isNegativeFixedInt FormatInt64 = false from by decide),
      (show ¬ (FormatInt64 = FormatInt8) from by decide),
      (show ¬ (FormatInt64 = FormatInt16) from by decide),
      (show ¬ (FormatInt64 = FormatInt32) from by decide),
      Bool.false_eq_true, Bool.or_self, if_false, if_true, eq_self_iff_true]
  · intro h1 h2 h3
    simp only [List.mem_cons, List.mem_singleton, not_or] at h3
    have hfi : isFixedInt tag = false := by
      rw [← Bool.not_eq_true, isFixedInt_iff]; omega
    have hnfi : isNegativeFixedInt tag = false := by
      rw [← Bool.not_eq_true, isNegativeFixedInt_iff tag htag]; omega
    simp [Decoder.ReadInt64, NewDataReader, DataReader.GetUint8,
      DataReader.checkBufferSize, U32, List.getD, Nat.mod_eq_of_lt htag,
      hfi, hnfi, h3.1, h3.2.1, h3.2.2.1, h3.2.2.2]
  · intro h1
    simp [Decoder.ReadUint64, NewDataReader, DataReader.GetUint8,
      DataReader.checkBufferSize, U32, List.getD, Nat.mod_eq_of_lt htag,
      (isFixedInt_iff tag).mpr h1]
  · intro h1
    have hfi : isFixedInt tag = false := by
      rw [← Bool.not_eq_true, isFixedInt_iff]; omega
    have hneg : toSigned 8 tag < 0 := by
      rw [toSigned]
      have hx : ¬ (tag < 2 ^ (8 - 1)) := by omega
      simp only [hx, if_false]
      omega
    simp [Decoder.ReadUint64, NewDataReader, DataReader.GetUint8,
      DataReader.checkBufferSize, U32, List.getD, Nat.mod_eq_of_lt htag,
      hfi, (isNegativeFixedInt_iff tag htag).mpr h1, hneg]
  · intro hc; subst hc
    have hget : DataReader.GetUint8 (NewDataReader [FormatUint8, p0, p1, p2, p3, p4, p5, p6, p7])
        = (.ok FormatUint8, ⟨[FormatUint8, p0, p1, p2, p3, p4, p5, p6, p7], 1, none⟩) := by
      rw [show NewDataReader [FormatUint8, p0, p1, p2, p3, p4, p5, p6, p7]
          = ⟨[FormatUint8, p0, p1, p2, p3, p4, p5, p6, p7], 0, none⟩ from rfl,
        GetUint8_ok _ 0 (by simp) (by simp [U32])]
      simp only [List.getD_cons_zero, Nat.zero_add]
      norm_num [FormatUint8]
    have hread : DataReader.GetUint8 ⟨[FormatUint8, p0, p1, p2, p3, p4, p5, p6, p7], 1, none⟩
        = (.ok (beVal [p0]), ⟨[FormatUint8, p0, p1, p2, p3, p4, p5, p6, p7], 2, none⟩) := by
      rw [GetUint8_ok _ 1 (by simp) (by simp [U32])]
      simp [beVal, List.getD]
    rw [Decoder.ReadUint64]
    simp only [hget, hread,
      (show isFixedInt FormatUint8 = false from by decide),
      (show isNegativeFixedInt FormatUint8 = false from by decide),
      Bool.false_eq_true, if_false, if_true, eq_self_iff_true]
  · intro hc; subst hc
    have hget : DataReader.GetUint8 (NewDataReader [FormatUint16, p0, p1, p2, p3, p4, p5, p6, p7])
        = (.ok FormatUint16, ⟨[FormatUint16, p0, p1, p2, p3, p4, p5, p6, p7], 1, none⟩) := by
      rw [show NewDataReader [FormatUint16, p0, p1, p2, p3, p4, p5, p6, p7]
          = ⟨[FormatUint16, p0, p1, p2, p3, p4, p5, p6, p7], 0, none⟩ from rfl,
        GetUint8_ok _ 0 (by simp) (by simp [U32])]
      simp only [List.getD_cons_zero, Nat.zero_add]
      norm_num [FormatUint16]
    have hread : DataReader.GetUint16 ⟨[FormatUint16, p0, p1, p2, p3, p4, p5, p6, p7], 1, none⟩
        = (.ok (beVal [p0, p1]), ⟨[FormatUint16, p0, p1, p2, p3, p4, p5, p6, p7], 3, none⟩) := by
      rw [GetUint16_ok _ 1 (by simp) (by simp [U32])]
      rw [show readBytesAt [FormatUint16, p0, p1, p2, p3, p4, p5, p6, p7] 1 2
          = [p0, p1] from rfl]
    rw [Decoder.ReadUint64]
    simp only [hget, hread,
      (show isFixedInt FormatUint16 = false from by decide),
      (show isNegativeFixedInt FormatUint16 = false from by decide),
      (show ¬ (FormatUint16 = FormatUint8) from by decide),
      Bool.false_eq_true, if_false, if_true, eq_self_iff_true]
  · intro hc; subst hc
    have hget : DataReader.GetUint8 (NewDataReader [FormatUint32, p0, p1, p2, p3, p4, p5, p6, p7])
        = (.ok FormatUint32, ⟨[FormatUint32, p0, p1, p2, p3, p4, p5, p6, p7], 1, none⟩) := by
      rw [show NewDataReader [FormatUint32, p0, p1, p2, p3, p4, p5, p6, p7]
          = ⟨[FormatUint32, p0, p1, p2, p3, p4, p5, p6, p7], 0, none⟩ from rfl,
        GetUint8_ok _ 0 (by simp) (by simp [U32])]
      simp only [List.getD_cons_zero, Nat.zero_add]
      norm_num [FormatUint32]
    have hread : DataReader.GetUint32 ⟨[FormatUint32, p0, p1, p2, p3, p4, p5, p6, p7], 1, none⟩
        = (.ok (beVal [p0, p1, p2, p3]), ⟨[FormatUint32, p0, p1, p2, p3, p4, p5, p6, p7], 5, none⟩) := by
      rw [GetUint32_ok _ 1 (by simp) (by simp [U32])]
      rw [show readBytesAt [FormatUint32, p0, p1, p2, p3, p4, p5, p6, p7] 1 4
          = [p0, p1, p2, p3] from rfl]
    rw [Decoder.ReadUint64]
    simp only [hget, hread,
      (show isFixedInt FormatUint32 = false from by decide),
      (show isNegativeFixedInt FormatUint32 = false from by decide),
      (show ¬ (FormatUint32 = FormatUint8) from by decide),
      (show ¬ (FormatUint32 = FormatUint16) from by decide),
      Bool.false_eq_true, if_false, if_true, eq_self_iff_true]
  · intro hc; subst hc
    have hget : DataReader.GetUint8 (NewDataReader [FormatUint64, p0, p1, p2, p3, p4, p5, p6, p7])
        = (.ok FormatUint64, ⟨[FormatUint64, p0, p1, p2, p3, p4, p5, p6, p7], 1, none⟩) := by
      rw [show NewDataReader [FormatUint64, p0, p1, p2, p3, p4, p5, p6, p7]
          = ⟨[FormatUint64, p0, p1, p2, p3, p4, p5, p6, p7], 0, none⟩ from rfl,
        GetUint8_ok _ 0 (by simp) (by simp [U32])]
      simp only [List.getD_cons_zero, Nat.zero_add]
      norm_num [FormatUint64]
    have hread : DataReader.GetUint64 ⟨[FormatUint64, p0, p1, p2, p3, p4, p5, p6, p7], 1, none⟩
        = (.ok (beVal [p0, p1, p2, p3, p4, p5, p6, p7]), ⟨[FormatUint64, p0, p1, p2, p3, p4, p5, p6, p7], 9, none⟩) := by
      rw [GetUint64_ok _ 1 (by simp) (by simp [U32])]
      rw [show readBytesAt [FormatUint64, p0, p1, p2, p3, p4, p5, p6, p7] 1 8
          = [p0, p1, p2, p3, p4, p5, p6, p7] from rfl]
    rw [Decoder.ReadUint64]
    simp only [hget, hread,
      (show isFixedInt FormatUint64 = false from by decide),
      (show isNegativeFixedInt FormatUint64 = false from by decide),
      (show ¬ (FormatUint64 = FormatUint8) from by decide),
      (show ¬ (FormatUint64 = FormatUint16) from by decide),
      (show ¬ (FormatUint64 = FormatUint32) from by decide),
      Bool.false_eq_true, if_false, if_true, eq_self_iff_true]
  · intro hc hpos; subst hc
    have hcond := not_lt.mpr hpos
    have hget : DataReader.GetUint8 (NewDataReader [FormatInt8, p0, p1, p2, p3, p4, p5, p6, p7])
        = (.ok FormatInt8, ⟨[FormatInt8, p0, p1, p2, p3, p4, p5, p6, p7], 1, none⟩) := by
      rw [show NewDataReader [FormatInt8, p0, p1, p2, p3, p4, p5, p6, p7]
          = ⟨[FormatInt8, p0, p1, p2, p3, p4, p5, p6, p7], 0, none⟩ from rfl,
        GetUint8_ok _ 0 (by simp) (by simp [U32])]
      simp only [List.getD_cons_zero, Nat.zero_add]
      norm_num [FormatInt8]
    have hread : DataReader.GetInt8 ⟨[FormatInt8, p0, p1, p2, p3, p4, p5, p6, p7], 1, none⟩
        = (.ok (toSigned 8 (beVal [p0])), ⟨[FormatInt8, p0, p1, p2, p3, p4, p5, p6, p7], 2, none⟩) := by
      rw [GetInt8_ok _ 1 (by simp) (by simp [U32])]
      simp [beVal, List.getD]
    rw [Decoder.ReadUint64]
    simp only [hget, hread,
      (show isFixedInt FormatInt8 = false from by decide),
      (show isNegativeFixedInt FormatInt8 = false from by decide),
      (show ¬ (FormatInt8 = FormatUint8) from by decide),
      (show ¬ (FormatInt8 = FormatUint16) from by decide),
      (show ¬ (FormatInt8 = FormatUint32) from by decide),
      (show ¬ (FormatInt8 = FormatUint64) from by decide),
      Bool.false_eq_true, if_false, if_true, eq_self_iff_true, hcond]
  · intro hc hneg; subst hc
    have hcond := hneg
    have hget : DataReader.GetUint8 (NewDataReader [FormatInt8, p0, p1, p2, p3, p4, p5, p6, p7])
        = (.ok FormatInt8, ⟨[FormatInt8, p0, p1, p2, p3, p4, p5, p6, p7], 1, none⟩) := by
      rw [show NewDataReader [FormatInt8, p0, p1, p2, p3, p4, p5, p6, p7]
          = ⟨[FormatInt8, p0, p1, p2, p3, p4, p5, p6, p7], 0, none⟩ from rfl,
        GetUint8_ok _ 0 (by simp) (by simp [U32])]
      simp only [List.getD_cons_zero, Nat.zero_add]
      norm_num [FormatInt8]
    have hread : DataReader.GetInt8 ⟨[FormatInt8, p0, p1, p2, p3, p4, p5, p6, p7], 1, none⟩
        = (.ok (toSigned 8 (beVal [p0])), ⟨[FormatInt8, p0, p1, p2, p3, p4, p5, p6, p7], 2, none⟩) := by
      rw [GetInt8_ok _ 1 (by simp) (by simp [U32])]
      simp [beVal, List.getD]
    rw [Decoder.ReadUint64]
    simp only [hget, hread,
      (show isFixedInt FormatInt8 = false from by decide),
      (show isNegativeFixedInt FormatInt8 = false from by decide),
      (show ¬ (FormatInt8 = FormatUint8) from by decide),
      (show ¬ (FormatInt8 = FormatUint16) from by decide),
      (show ¬ (FormatInt8 = FormatUint32) from by decide),
      (show ¬ (FormatInt8 = FormatUint64) from by decide),
      Bool.false_eq_true, if_false, if_true, eq_self_iff_true, hcond]
  · intro hc hpos; subst hc
    have hcond := not_lt.mpr hpos
    have hget : DataReader.GetUint8 (NewDataReader [FormatInt16, p0, p1, p2, p3, p4, p5, p6, p7])
        = (.ok FormatInt16, ⟨[FormatInt16, p0, p1, p2, p3, p4, p5, p6, p7], 1, none⟩) := by
      rw [show NewDataReader [FormatInt16, p0, p1, p2, p3, p4, p5, p6, p7]
          = ⟨[FormatInt16, p0, p1, p2, p3, p4, p5, p6, p7], 0, none⟩ from rfl,
        GetUint8_ok _ 0 (by simp) (by simp [U32])]
      simp only [List.getD_cons_zero, Nat.zero_add]
      norm_num [FormatInt16]
    have hread : DataReader.GetInt16 ⟨[FormatInt16, p0, p1, p2, p3, p4, p5, p6, p7], 1, none⟩
        = (.ok (toSigned 16 (beVal [p0, p1])), ⟨[FormatInt16, p0, p1, p2, p3, p4, p5, p6, p7], 3, none⟩) := by
      rw [GetInt16_ok _ 1 (by simp) (by simp [U32])]
      rw [show readBytesAt [FormatInt16, p0, p1, p2, p3, p4, p5, p6, p7] 1 2
          = [p0, p1] from rfl]
    rw [Decoder.ReadUint64]
    simp only [hget, hread,
      (show isFixedInt FormatInt16 = false from by decide),
      (show isNegativeFixedInt FormatInt16 = false from by decide),
      (show ¬ (FormatInt16 = FormatUint8) from by decide),
      (show ¬ (FormatInt16 = FormatUint16) from by decide),
      (show ¬ (FormatInt16 = FormatUint32) from by decide),
      (show ¬ (FormatInt16 = FormatUint64) from by decide),
      (show ¬ (FormatInt16 = FormatInt8) from by decide),
      Bool.false_eq_true, if_false, if_true, eq_self_iff_true, hcond]
  · intro hc hneg; subst hc
    have hcond := hneg
    have hget : DataReader.GetUint8 (NewDataReader [FormatInt16, p0, p1, p2, p3, p4, p5, p6, p7])
        = (.ok FormatInt16, ⟨[FormatInt16, p0, p1, p2, p3, p4, p5, p6, p7], 1, none⟩) := by
      rw [show NewDataReader [FormatInt16, p0, p1, p2, p3, p4, p5, p6, p7]
          = ⟨[FormatInt16, p0, p1, p2, p3, p4, p5, p6, p7], 0, none⟩ from rfl,
        GetUint8_ok _ 0 (by simp) (by simp [U32])]
      simp only [List.getD_cons_zero, Nat.zero_add]
      norm_num [FormatInt16]
    have hread : DataReader.GetInt16 ⟨[FormatInt16, p0, p1, p2, p3, p4, p5, p6, p7], 1, none⟩
        = (.ok (toSigned 16 (beVal [p0, p1])), ⟨[FormatInt16, p0, p1, p2, p3, p4, p5, p6, p7], 3, none⟩) := by
      rw [GetInt16_ok _ 1 (by simp) (by simp [U32])]
      rw [show readBytesAt [FormatInt16, p0, p1, p2, p3, p4, p5, p6, p7] 1 2
          = [p0, p1] from rfl]
    rw [Decoder.ReadUint64]
    simp only [hget, hread,
      (show isFixedInt FormatInt16 = false from by decide),
      (show isNegativeFixedInt FormatInt16 = false from by decide),
      (show ¬ (FormatInt16 = FormatUint8) from by decide),
      (show ¬ (FormatInt16 = FormatUint16) from by decide),
      (show ¬ (FormatInt16 = FormatUint32) from by decide),
      (show ¬ (FormatInt16 = FormatUint64) from by decide),
      (show ¬ (FormatInt16 = FormatInt8) from by decide),
      Bool.false_eq_true, if_false, if_true, eq_self_iff_true, hcond]
  · intro hc hpos; subst hc
    have hcond := not_lt.mpr hpos
    have hget : DataReader.GetUint8 (NewDataReader [FormatInt32, p0, p1, p2, p3, p4, p5, p6, p7])
        = (.ok FormatInt32, ⟨[FormatInt32, p0, p1, p2, p3, p4, p5, p6, p7], 1, none⟩) := by
      rw [show NewDataReader [FormatInt32, p0, p1, p2, p3, p4, p5, p6, p7]
          = ⟨[FormatInt32, p0, p1, p2, p3, p4, p5, p6, p7], 0, none⟩ from rfl,
        GetUint8_ok _ 0 (by simp) (by simp [U32])]
      simp only [List.getD_cons_zero, Nat.zero_add]
      norm_num [FormatInt32]
    have hread : DataReader.GetInt32 ⟨[FormatInt32, p0, p1, p2, p3, p4, p5, p6, p7], 1, none⟩
        = (.ok (toSigned 32 (beVal [p0, p1, p2, p3])), ⟨[FormatInt32, p0, p1, p2, p3, p4, p5, p6, p7], 5, none⟩) := by
      rw [GetInt32_ok _ 1 (by simp) (by simp [U32])]
      rw [show readBytesAt [FormatInt32, p0, p1, p2, p3, p4, p5, p6, p7] 1 4
          = [p0, p1, p2, p3] from rfl]
    rw [Decoder.ReadUint64]
    simp only [hget, hread,
      (show isFixedInt FormatInt32 = false from by decide),
      (show isNegativeFixedInt FormatInt32 = false from by decide),
      (show ¬ (FormatInt32 = FormatUint8) from by decide),
      (show ¬ (FormatInt32 = FormatUint16) from by decide),
      (show ¬ (FormatInt32 = FormatUint32) from by decide),
      (show ¬ (FormatInt32 = FormatUint64) from by decide),
      (show ¬ (FormatInt32 = FormatInt8) from by decide),
      (show ¬ (FormatInt32 = FormatInt16) from by decide),
      Bool.false_eq_true, if_false, if_true, eq_self_iff_true, hcond]
  · intro hc hneg; subst hc
    have hcond := hneg
    have hget : DataReader.GetUint8 (NewDataReader [FormatInt32, p0, p1, p2, p3, p4, p5, p6, p7])
        = (.ok FormatInt32, ⟨[FormatInt32, p0, p1, p2, p3, p4, p5, p6, p7], 1, none⟩) := by
      rw [show NewDataReader [FormatInt32, p0, p1, p2, p3, p4, p5, p6, p7]
          = ⟨[FormatInt32, p0, p1, p2, p3, p4, p5, p6, p7], 0, none⟩ from rfl,
        GetUint8_ok _ 0 (by simp) (by simp [U32])]
      simp only [List.getD_cons_zero, Nat.zero_add]
      norm_num [FormatInt32]
    have hread : DataReader.GetInt32 ⟨[FormatInt32, p0, p1, p2, p3, p4, p5, p6, p7], 1, none⟩
        = (.ok (toSigned 32 (beVal [p0, p1, p2, p3])), ⟨[FormatInt32, p0, p1, p2, p3, p4, p5, p6, p7], 5, none⟩) := by
      rw [GetInt32_ok _ 1 (by simp) (by simp [U32])]
      rw [show readBytesAt [FormatInt32, p0, p1, p2, p3, p4, p5, p6, p7] 1 4
          = [p0, p1, p2, p3] from rfl]
    rw [Decoder.ReadUint64]
    simp only [hget, hread,
      (show isFixedInt FormatInt32 = false from by decide),
      (show isNegativeFixedInt FormatInt32 = false from by decide),
      (show ¬ (FormatInt32 = FormatUint8) from by decide),
      (show ¬ (FormatInt32 = FormatUint16) from by decide),
      (show ¬ (FormatInt32 = FormatUint32) from by decide),
      (show ¬ (FormatInt32 = FormatUint64) from by decide),
      (show ¬ (FormatInt32 = FormatInt8) from by decide),
      (show ¬ (FormatInt32 = FormatInt16) from by decide),
      Bool.false_eq_true, if_false, if_true, eq_self_iff_true, hcond]
  · intro hc hpos; subst hc
    have hcond := not_lt.mpr hpos
    have hget : DataReader.GetUint8 (NewDataReader [FormatInt64, p0, p1, p2, p3, p4, p5, p6, p7])
        = (.ok FormatInt64, ⟨[FormatInt64, p0, p1, p2, p3, p4, p5, p6, p7], 1, none⟩) := by
      rw [show NewDataReader [FormatInt64, p0, p1, p2, p3, p4, p5, p6, p7]
          = ⟨[FormatInt64, p0, p1, p2, p3, p4, p5, p6, p7], 0, none⟩ from rfl,
        GetUint8_ok _ 0 (by simp) (by simp [U32])]
      simp only [List.getD_cons_zero, Nat.zero_add]
      norm_num [FormatInt64]
    have hread : DataReader.GetInt64 ⟨[FormatInt64, p0, p1, p2, p3, p4, p5, p6, p7], 1, none⟩
        = (.ok (toSigned 64 (beVal [p0, p1, p2, p3, p4, p5, p6, p7])), ⟨[FormatInt64, p0, p1, p2, p3, p4, p5, p6, p7], 9, none⟩) := by
      rw [GetInt64_ok _ 1 (by simp) (by simp [U32])]
      rw [show readBytesAt [FormatInt64, p0, p1, p2, p3, p4, p5, p6, p7] 1 8
          = [p0, p1, p2, p3, p4, p5, p6, p7] from rfl]
    rw [Decoder.ReadUint64]
    simp only [hget, hread,
      (show isFixedInt FormatInt64 = false from by decide),
      (show isNegativeFixedInt FormatInt64 = false from by decide),
      (show ¬ (FormatInt64 = FormatUint8) from by decide),
      (show ¬ (FormatInt64 = FormatUint16) from by decide),
      (show ¬ (FormatInt64 = FormatUint32) from by decide),
      (show ¬ (FormatInt64 = FormatUint64) from by decide),
      (show ¬ (FormatInt64 = FormatInt8) from by decide),
      (show ¬ (FormatInt64 = FormatInt16) from by decide),
      (show ¬ (FormatInt64 = FormatInt32) from by decide),
      Bool.false_eq_true, if_false, if_true, eq_self_iff_true, hcond]
  · intro hc hneg; subst hc
    have hcond := hneg
    have hget : DataReader.GetUint8 (NewDataReader [FormatInt64, p0, p1, p2, p3, p4, p5, p6, p7])
        = (.ok FormatInt64, ⟨[FormatInt64, p0, p1, p2, p3, p4, p5, p6, p7], 1, none⟩) := by
      rw [show NewDataReader [FormatInt64, p0, p1, p2, p3, p4, p5, p6, p7]
          = ⟨[FormatInt64, p0, p1, p2, p3, p4, p5, p6, p7], 0, none⟩ from rfl,
        GetUint8_ok _ 0 (by simp) (by simp [U32])]
      simp only [List.getD_cons_zero, Nat.zero_add]
      norm_num [FormatInt64]
    have hread : DataReader.GetInt64 ⟨[FormatInt64, p0, p1, p2, p3, p4, p5, p6, p7], 1, none⟩
        = (.ok (toSigned 64 (beVal [p0, p1, p2, p3, p4, p5, p6, p7])), ⟨[FormatInt64, p0, p1, p2, p3, p4, p5, p6, p7], 9, none⟩) := by
      rw [GetInt64_ok _ 1 (by simp) (by simp [U32])]
      rw [show readBytesAt [FormatInt64, p0, p1, p2, p3, p4, p5, p6, p7] 1 8
          = [p0, p1, p2, p3, p4, p5, p6, p7] from rfl]
    rw [Decoder.ReadUint64]
    simp only [hget, hread,
      (show isFixedInt FormatInt64 = false from by decide),
      (show isNegativeFixedInt FormatInt64 = false from by decide),
      (show ¬ (FormatInt64 = FormatUint8) from by decide),
      (show ¬ (FormatInt64 = FormatUint16) from by decide),
      (show ¬ (FormatInt64 = FormatUint32) from by decide),
      (show ¬ (FormatInt64 = FormatUint64) from by decide),
      (show ¬ (FormatInt64 = FormatInt8) from by decide),
      (show ¬ (FormatInt64 = FormatInt16) from by decide),
      (show ¬ (FormatInt64 = FormatInt32) from by decide),
      Bool.false_eq_true, if_false, if_true, eq_self_iff_true, hcond]
  · intro h1 h2 h3
    simp only [List.mem_cons, List.mem_singleton, not_or] at h3
    have hfi : isFixedInt tag = false := by
      rw [← Bool.not_eq_true, isFixedInt_iff]; omega
    have hnfi : isNegativeFixedInt tag = false := by
      rw [← Bool.not_eq_true, isNegativeFixedInt_iff tag htag]; omega
    simp [Decoder.ReadUint64, NewDataReader, DataReader.GetUint8,
      DataReader.checkBufferSize, U32, List.getD, Nat.mod_eq_of_lt htag,
      hfi, hnfi, h3.1, h3.2.1, h3.2.2.1, h3.2.2.2.1, h3.2.2.2.2.1,
      h3.2.2.2.2.2.1, h3.2.2.2.2.2.2.1, h3.2.2.2.2.2.2.2]

/-- Witness for C6 at concrete buffers: an int16 read and a rejected tag. -/
theorem C6_integer_read_acceptance_witness :
    (Decoder.ReadInt64 (NewDataReader [FormatInt16, 1, 2, 3, 4, 5, 6, 7, 8])).1
      = .ok (toSigned 16 (beVal [1, 2])) ∧
    (Decoder.ReadUint64 (NewDataReader [0xc1, 1, 2, 3, 4, 5, 6, 7, 8])).1
      = .error (Err.read "bad prefix for uint") := by
  have h := C6_integer_read_acceptance FormatInt16 1 2 3 4 5 6 7 8 (by decide)
  have h2 := C6_integer_read_acceptance 0xc1 1 2 3 4 5 6 7 8 (by decide)
  have h2last := h2.2.2.2.2.2.2.2.2.2.2.2.2.2.2.2.2.2.2.2.2.2
  exact ⟨h.2.2.2.1 rfl, h2last (by decide) (by decide) (by decide)⟩

set_option maxRecDepth 2000 in
theorem isFixedArray_iff : ∀ t < 256, (isFixedArray t = true ↔ 144 ≤ t ∧ t < 160) := by
  decide

/-- C7 (amended): `readBinLength` succeeds for exactly the tags nil
(length 0), bin-8/16/32 and fixarray (length = low four bits), and returns
the bad-prefix error for every other tag — including array-16 and
array-32, which the unamended claim said were accepted; `ReadByteArray`
on a nil tag yields the empty byte slice and on a bin-8 value yields its
payload. -/
theorem C7_binary_read_acceptance (tag p0 p1 p2 p3 : Nat) (htag : tag < 256) :
    (144 ≤ tag → tag < 160 →
      (Decoder.readBinLength (NewDataReader [tag, p0, p1, p2, p3])).1
        = .ok (tag &&& FormatFourLeastSigBitsInByte)) ∧
    (tag = FormatNil →
      (Decoder.readBinLength (NewDataReader [tag, p0, p1, p2, p3])).1 = .ok 0) ∧
    (tag = FormatBin8 →
      (Decoder.readBinLength (NewDataReader [tag, p0, p1, p2, p3])).1
        = .ok (beVal [p0])) ∧
    (tag = FormatBin16 →
      (Decoder.readBinLength (NewDataReader [tag, p0, p1, p2, p3])).1
        = .ok (beVal [p0, p1])) ∧
    (tag = FormatBin32 →
      (Decoder.readBinLength (NewDataReader [tag, p0, p1, p2, p3])).1
        = .ok (beVal [p0, p1, p2, p3])) ∧
    (¬ (144 ≤ tag ∧ tag < 160) →
      tag ∉ ([FormatNil, FormatBin8, FormatBin16, FormatBin32] : List Nat) →
      (Decoder.readBinLength (NewDataReader [tag, p0, p1, p2, p3])).1
        = .error (Err.read "bad prefix for binary length")) ∧
    ((Decoder.ReadByteArray (NewDataReader [FormatNil, p0, p1, p2, p3])).1
      = .ok []) ∧
    ((Decoder.ReadByteArray (NewDataReader [FormatBin8, 2, p0, p1])).1
      = .ok [p0, p1]) := by
  refine ⟨?_, ?_, ?_, ?_, ?_, ?_, ?_, ?_⟩
  · intro h1 h2
    simp [Decoder.readBinLength, NewDataReader, DataReader.GetUint8,
      DataReader.checkBufferSize, U32, List.getD, Nat.mod_eq_of_lt htag,
      (isFixedArray_iff tag htag).mpr ⟨h1, h2⟩]
  · intro hc; subst hc
    simp [Decoder.readBinLength, NewDataReader, DataReader.GetUint8,
      DataReader.checkBufferSize, U32, List.getD,
      (show isFixedArray 192 = false from by decide), FormatNil]
  · intro hc; subst hc
    simp [Decoder.readBinLength, NewDataReader, DataReader.GetUint8,
      DataReader.checkBufferSize, U32, List.getD, beVal,
      (show isFixedArray 196 = false from by decide), FormatNil, FormatBin8]
  · intro hc; subst hc
    have hget : DataReader.GetUint8 (NewDataReader [FormatBin16, p0, p1, p2, p3])
        = (.ok FormatBin16, ⟨[FormatBin16, p0, p1, p2, p3], 1, none⟩) := by
      rw [show NewDataReader [FormatBin16, p0, p1, p2, p3]
          = ⟨[FormatBin16, p0, p1, p2, p3], 0, none⟩ from rfl,
        GetUint8_ok _ 0 (by simp) (by simp [U32])]
      simp only [List.getD_cons_zero, Nat.zero_add]
      norm_num [FormatBin16]
    have hread : DataReader.GetUint16 ⟨[FormatBin16, p0, p1, p2, p3], 1, none⟩
        = (.ok (beVal [p0, p1]), ⟨[FormatBin16, p0, p1, p2, p3], 3, none⟩) := by
      rw [GetUint16_ok _ 1 (by simp) (by simp [U32])]
      rw [show readBytesAt [FormatBin16, p0, p1, p2, p3] 1 2 = [p0, p1] from rfl]
    rw [Decoder.readBinLength]
    simp only [hget, hread,
      (show isFixedArray FormatBin16 = false from by decide),
      (show ¬ (FormatBin16 = FormatNil) from by decide),
      (show ¬ (FormatBin16 = FormatBin8) from by decide),
      Bool.false_eq_true, if_false, if_true, eq_self_iff_true]
  · intro hc; subst hc
    have hget : DataReader.GetUint8 (NewDataReader [FormatBin32, p0, p1, p2, p3])
        = (.ok FormatBin32, ⟨[FormatBin32, p0, p1, p2, p3], 1, none⟩) := by
      rw [show NewDataReader [FormatBin32, p0, p1, p2, p3]
          = ⟨[FormatBin32, p0, p1, p2, p3], 0, none⟩ from rfl,
        GetUint8_ok _ 0 (by simp) (by simp [U32])]
      simp only [List.getD_cons_zero, Nat.zero_add]
      norm_num [FormatBin32]
    have hread : DataReader.GetUint32 ⟨[FormatBin32, p0, p1, p2, p3], 1, none⟩
        = (.ok (beVal [p0, p1, p2, p3]), ⟨[FormatBin32, p0, p1, p2, p3], 5, none⟩) := by
      rw [GetUint32_ok _ 1 (by simp) (by simp [U32])]
      rw [show readBytesAt [FormatBin32, p0, p1, p2, p3] 1 4 = [p0, p1, p2, p3] from rfl]
    rw [Decoder.readBinLength]
    simp only [hget, hread,
      (show isFixedArray FormatBin32 = false from by decide),
      (show ¬ (FormatBin32 = FormatNil) from by decide),
      (show ¬ (FormatBin32 = FormatBin8) from by decide),
      (show ¬ (FormatBin32 = FormatBin16) from by decide),
      Bool.false_eq_true, if_false, if_true, eq_self_iff_true]
  · intro h1 h2
    simp only [List.mem_cons, List.mem_singleton, not_or] at h2
    have hfa : isFixedArray tag = false := by
      rw [← Bool.not_eq_true, isFixedArray_iff tag htag]; omega
    simp [Decoder.readBinLength, NewDataReader, DataReader.GetUint8,
      DataReader.checkBufferSize, U32, List.getD, Nat.mod_eq_of_lt htag,
      hfa, h2.1, h2.2.1, h2.2.2.1, h2.2.2.2]
  · simp [Decoder.ReadByteArray, Decoder.readBinLength, NewDataReader,
      DataReader.GetUint8, DataReader.GetBytes, DataReader.checkBufferSize,
      U32, List.getD, readBytesAt,
      (show isFixedArray 192 = false from by decide), FormatNil]
  · simp [Decoder.ReadByteArray, Decoder.readBinLength, NewDataReader,
      DataReader.GetUint8, DataReader.GetBytes, DataReader.checkBufferSize,
      U32, List.getD, readBytesAt,
      (show isFixedArray 196 = false from by decide), FormatNil, FormatBin8]

/-- C7 (counterexample): the unamended claim says `ReadByteArray` accepts
the array-16 tag; on the complete array-16-header buffer `dc 00 00` it in
fact returns the bad-prefix error. -/
theorem C7_counterexample_array16_rejected :
    (Decoder.ReadByteArray (NewDataReader [FormatArray16, 0, 0])).1
      = .error (Err.read "bad prefix for binary length") := by
  decide

/-- Witness for C7 at concrete buffers: a bin-16 header and the rejected
array-32 tag. -/
theorem C7_binary_read_acceptance_witness :
    (Decoder.readBinLength (NewDataReader [FormatBin16, 0, 3, 9, 9])).1
      = .ok (beVal [0, 3]) ∧
    (Decoder.readBinLength (NewDataReader [FormatArray32, 0, 0, 0, 0])).1
      = .error (Err.read "bad prefix for binary length") := by
  have h := C7_binary_read_acceptance FormatBin16 0 3 9 9 (by decide)
  have h2 := C7_binary_read_acceptance FormatArray32 0 0 0 0 (by decide)
  exact ⟨h.2.2.2.1 rfl, h2.2.2.2.2.2.1 (by decide) (by decide)⟩

set_option maxRecDepth 2000 in
theorem negfix_byte : ∀ m < 256, 224 ≤ m →
    isNegativeFixedInt ((m ||| FormatNegativeFixInt) % 256) = true
      ∧ (m ||| FormatNegativeFixInt) % 256 = m := by
  decide

/-- C5: width minimality — `WriteInt64` emits positive fixint on `[0,128)`,
negative fixint on `[-32,0)`, and otherwise exactly the narrowest of
int8/int16/int32/int64 (1, 2, 3, 5 or 9 bytes, with the matching tag
byte); `WriteUint64` emits positive fixint below 128 and otherwise exactly
the narrowest of uint8/uint16/uint32/uint64. -/
theorem C5_integer_width_minimality (v : Int) (u : Nat) :
    (0 ≤ v → v < 128 →
      (Encoder.WriteInt64 (freshReader 9) v).byteOffset = 1 ∧
      (Encoder.WriteInt64 (freshReader 9) v).buffer.getD 0 0 = v.toNat) ∧
    (-32 ≤ v → v < 0 →
      (Encoder.WriteInt64 (freshReader 9) v).byteOffset = 1 ∧
      isNegativeFixedInt ((Encoder.WriteInt64 (freshReader 9) v).buffer.getD 0 0) = true) ∧
    (-128 ≤ v → v < -32 →
      (Encoder.WriteInt64 (freshReader 9) v).byteOffset = 2 ∧
      (Encoder.WriteInt64 (freshReader 9) v).buffer.getD 0 0 = FormatInt8) ∧
    ((128 ≤ v ∧ v ≤ 32767) ∨ (-32768 ≤ v ∧ v < -128) →
      (Encoder.WriteInt64 (freshReader 9) v).byteOffset = 3 ∧
      (Encoder.WriteInt64 (freshReader 9) v).buffer.getD 0 0 = FormatInt16) ∧
    ((32768 ≤ v ∧ v ≤ 2147483647) ∨ (-2147483648 ≤ v ∧ v < -32768) →
      (Encoder.WriteInt64 (freshReader 9) v).byteOffset = 5 ∧
      (Encoder.WriteInt64 (freshReader 9) v).buffer.getD 0 0 = FormatInt32) ∧
    ((2147483648 ≤ v ∧ v ≤ 9223372036854775807) ∨
        (-9223372036854775808 ≤ v ∧ v < -2147483648) →
      (Encoder.WriteInt64 (freshReader 9) v).byteOffset = 9 ∧
      (Encoder.WriteInt64 (freshReader 9) v).buffer.getD 0 0 = FormatInt64) ∧
    (u < 128 →
      (Encoder.WriteUint64 (freshReader 9) u).byteOffset = 1 ∧
      (Encoder.WriteUint64 (freshReader 9) u).buffer.getD 0 0 = u) ∧
    (128 ≤ u → u ≤ 255 →
      (Encoder.WriteUint64 (freshReader 9) u).byteOffset = 2 ∧
      (Encoder.WriteUint64 (freshReader 9) u).buffer.getD 0 0 = FormatUint8) ∧
    (256 ≤ u → u ≤ 65535 →
      (Encoder.WriteUint64 (freshReader 9) u).byteOffset = 3 ∧
      (Encoder.WriteUint64 (freshReader 9) u).buffer.getD 0 0 = FormatUint16) ∧
    (65536 ≤ u → u ≤ 4294967295 →
      (Encoder.WriteUint64 (freshReader 9) u).byteOffset = 5 ∧
      (Encoder.WriteUint64 (freshReader 9) u).buffer.getD 0 0 = FormatUint32) ∧
    (4294967296 ≤ u →
      (Encoder.WriteUint64 (freshReader 9) u).byteOffset = 9 ∧
      (Encoder.WriteUint64 (freshReader 9) u).buffer.getD 0 0 = FormatUint64) := by
  refine ⟨?_, ?_, ?_, ?_, ?_, ?_, ?_, ?_, ?_, ?_, ?_⟩
  · intro h1 h2
    rw [Encoder.WriteInt64, if_pos ⟨h1, by omega⟩]
    rw [show freshReader 9 = ⟨List.replicate 9 0, 0, none⟩ from rfl]
    rw [SetUint8_ok _ 0 _ (by simp) (by simp [U32])]
    refine ⟨rfl, ?_⟩
    simp [List.replicate, List.getD]
    omega
  · intro h1 h2
    rw [Encoder.WriteInt64, if_neg (by omega), if_pos ⟨by omega, by omega⟩]
    rw [show freshReader 9 = ⟨List.replicate 9 0, 0, none⟩ from rfl]
    rw [SetUint8_ok _ 0 _ (by simp) (by simp [U32])]
    refine ⟨rfl, ?_⟩
    have hb := negfix_byte (v % 256).toNat (by omega) (by omega)
    simp [List.replicate, List.getD]
    exact hb.1
  · intro h1 h2
    rw [Encoder.WriteInt64, if_neg (by omega), if_neg (by omega), if_pos ⟨by omega, by omega⟩]
    rw [show freshReader 9 = ⟨List.replicate 9 0, 0, none⟩ from rfl]
    rw [SetUint8_ok _ 0 _ (by simp) (by simp [U32])]
    rw [SetInt8_ok _ 1 _ (by simp) (by simp [U32])]
    refine ⟨rfl, ?_⟩
    simp [List.replicate, List.getD, FormatInt8]
  · intro h1
    rw [Encoder.WriteInt64, if_neg (by omega), if_neg (by omega), if_neg (by omega),
      if_pos ⟨by omega, by omega⟩]
    rw [show freshReader 9 = ⟨List.replicate 9 0, 0, none⟩ from rfl]
    rw [SetUint8_ok _ 0 _ (by simp) (by simp [U32])]
    rw [SetInt16_ok _ 1 _ (by simp) (by simp [U32])]
    refine ⟨rfl, ?_⟩
    simp [List.replicate, List.getD, FormatInt16, bePut, writeAt, getD_writeAt_lt]
  · intro h1
    rw [Encoder.WriteInt64, if_neg (by omega), if_neg (by omega), if_neg (by omega),
      if_neg (by omega), if_pos ⟨by omega, by omega⟩]
    rw [show freshReader 9 = ⟨List.replicate 9 0, 0, none⟩ from rfl]
    rw [SetUint8_ok _ 0 _ (by simp) (by simp [U32])]
    rw [SetInt32_ok _ 1 _ (by simp) (by simp [U32])]
    refine ⟨rfl, ?_⟩
    simp [List.replicate, List.getD, FormatInt32, bePut, writeAt, getD_writeAt_lt]
  · intro h1
    rw [Encoder.WriteInt64, if_neg (by omega), if_neg (by omega), if_neg (by omega),
      if_neg (by omega), if_neg (by omega)]
    rw [show freshReader 9 = ⟨List.replicate 9 0, 0, none⟩ from rfl]
    rw [SetUint8_ok _ 0 _ (by simp) (by simp [U32])]
    rw [SetInt64_ok _ 1 _ (by simp) (by simp [U32])]
    refine ⟨rfl, ?_⟩
    simp [List.replicate, List.getD, FormatInt64, bePut, writeAt, getD_writeAt_lt]
  · intro h1
    rw [Encoder.WriteUint64, if_pos (by omega)]
    rw [show freshReader 9 = ⟨List.replicate 9 0, 0, none⟩ from rfl]
    rw [SetUint8_ok _ 0 _ (by simp) (by simp [U32])]
    refine ⟨rfl, ?_⟩
    simp [List.replicate, List.getD]
    omega
  · intro h1 h2
    rw [Encoder.WriteUint64, if_neg (by omega), if_pos (by omega)]
    rw [show freshReader 9 = ⟨List.replicate 9 0, 0, none⟩ from rfl]
    rw [SetUint8_ok _ 0 _ (by simp) (by simp [U32])]
    rw [SetUint8_ok _ 1 _ (by simp) (by simp [U32])]
    refine ⟨rfl, ?_⟩
    simp [List.replicate, List.getD, FormatUint8]
  · intro h1 h2
    rw [Encoder.WriteUint64, if_neg (by omega), if_neg (by omega), if_pos (by omega)]
    rw [show freshReader 9 = ⟨List.replicate 9 0, 0, none⟩ from rfl]
    rw [SetUint8_ok _ 0 _ (by simp) (by simp [U32])]
    rw [SetUint16_ok _ 1 _ (by simp) (by simp [U32])]
    refine ⟨rfl, ?_⟩
    simp [List.replicate, List.getD, FormatUint16, bePut, writeAt, getD_writeAt_lt]
  · intro h1 h2
    rw [Encoder.WriteUint64, if_neg (by omega), if_neg (by omega), if_neg (by omega),
      if_pos (by omega)]
    rw [show freshReader 9 = ⟨List.replicate 9 0, 0, none⟩ from rfl]
    rw [SetUint8_ok _ 0 _ (by simp) (by simp [U32])]
    rw [SetUint32_ok _ 1 _ (by simp) (by simp [U32])]
    refine ⟨rfl, ?_⟩
    simp [List.replicate, List.getD, FormatUint32, bePut, writeAt, getD_writeAt_lt]
  · intro h1
    rw [Encoder.WriteUint64, if_neg (by omega), if_neg (by omega), if_neg (by omega),
      if_neg (by omega)]
    rw [show freshReader 9 = ⟨List.replicate 9 0, 0, none⟩ from rfl]
    rw [SetUint8_ok _ 0 _ (by simp) (by simp [U32])]
    rw [SetUint64_ok _ 1 _ (by simp) (by simp [U32])]
    refine ⟨rfl, ?_⟩
    simp [List.replicate, List.getD, FormatUint64, bePut, writeAt, getD_writeAt_lt]

/-- Witness for C5 at concrete values: 1000 is written as int16 and 300 as
uint16. -/
theorem C5_integer_width_minimality_witness :
    ((Encoder.WriteInt64 (freshReader 9) 1000).byteOffset = 3 ∧
      (Encoder.WriteInt64 (freshReader 9) 1000).buffer.getD 0 0 = FormatInt16) ∧
    ((Encoder.WriteUint64 (freshReader 9) 300).byteOffset = 3 ∧
      (Encoder.WriteUint64 (freshReader 9) 300).buffer.getD 0 0 = FormatUint16) := by
  have h := C5_integer_width_minimality 1000 300
  exact ⟨h.2.2.2.1 (Or.inl ⟨by norm_num, by norm_num⟩),
    h.2.2.2.2.2.2.2.2.1 (by norm_num) (by norm_num)⟩

theorem readBytesAt_set_ge (b : List Nat) (x off k p : Nat) (h : off + k ≤ p) :
    readBytesAt (b.set p x) off k = readBytesAt b off k := by
  apply List.ext_getElem?
  intro i
  simp only [readBytesAt, List.getElem?_take, List.getElem?_drop]
  split
  · rw [List.getElem?_set_ne (by omega)]
  · rfl

theorem readBytesAt_writeAt_ge (src : List Nat) :
    ∀ (b : List Nat) (off k p : Nat), off + k ≤ p →
      readBytesAt (writeAt b p src) off k = readBytesAt b off k := by
  induction src with
  | nil => intro b off k p _; rfl
  | cons c rest ih =>
    intro b off k p h
    rw [writeAt, ih (b.set p c) off k (p + 1) (by omega),
      readBytesAt_set_ge b c off k p h]

set_option maxRecDepth 2000 in
theorem negfix_pred : ∀ m < 256, 224 ≤ m →
    isNegativeFixedInt m = true ∧ isFixedInt m = false := by
  decide

set_option maxRecDepth 2000 in
theorem fixstr_facts : ∀ n < 32, (n ||| FormatFixString) % 256 = n + 160
    ∧ isFixedString (n + 160) = true ∧ (n + 160) &&& 0x1f = n := by
  decide

/-- C3: round-trip identity — decoding the bytes produced by the matching
typed write returns the value exactly: for every `int64`, every `uint64`,
every `bool`, every byte string (byte-exact), and every `float32`/`float64`
bit pattern (bit-exact). -/
theorem C3_roundtrip_identity (v : Int) (u : Nat) (b : Bool) (s : List Nat)
    (f32 f64 : Nat) :
    (-(2 ^ 63) ≤ v → v < 2 ^ 63 →
      (Decoder.ReadInt64 (NewDataReader
        (Encoder.WriteInt64 (freshReader 9) v).buffer)).1 = .ok v) ∧
    (u < 2 ^ 64 →
      (Decoder.ReadUint64 (NewDataReader
        (Encoder.WriteUint64 (freshReader 9) u).buffer)).1 = .ok u) ∧
    ((Decoder.ReadBool (NewDataReader
        (Encoder.WriteBool (freshReader 1) b).buffer)).1 = .ok b) ∧
    (s.length + 5 < U32 →
      (Decoder.ReadString (NewDataReader
        (Encoder.WriteString (freshReader (5 + s.length)) s).buffer)).1 = .ok s) ∧
    (f32 < 2 ^ 32 →
      (Decoder.ReadFloat32 (NewDataReader
        (Encoder.WriteFloat32 (freshReader 5) f32).buffer)).1 = .ok f32) ∧
    (f64 < 2 ^ 64 →
      (Decoder.ReadFloat64 (NewDataReader
        (Encoder.WriteFloat64 (freshReader 9) f64).buffer)).1 = .ok f64) := by
  refine ⟨?_, ?_, ?_, ?_, ?_, ?_⟩
  · intro hlo hhi
    by_cases hA : 0 ≤ v ∧ v < 2 ^ 7
    · rw [Encoder.WriteInt64, if_pos hA]
      rw [show freshReader 9 = ⟨List.replicate 9 0, 0, none⟩ from rfl]
      rw [SetUint8_ok _ 0 _ (by simp) (by simp [U32])]
      have hval : toSigned 8 ((v % 256).toNat % 256) = v := by
        rw [toSigned, if_pos (by norm_num; omega)]
        omega
      simp [Decoder.ReadInt64, NewDataReader, DataReader.GetUint8,
        DataReader.checkBufferSize, U32, List.replicate, List.getD,
        (isFixedInt_iff ((v % 256).toNat % 256)).mpr (by omega), hval]
    · by_cases hB2 : v < 0 ∧ -(2 ^ 5) ≤ v
      · rw [Encoder.WriteInt64, if_neg hA, if_pos hB2]
        rw [show freshReader 9 = ⟨List.replicate 9 0, 0, none⟩ from rfl]
        rw [SetUint8_ok _ 0 _ (by simp) (by simp [U32])]
        have hbb := negfix_byte (v % 256).toNat (by omega) (by omega)
        rw [show ((v % 256).toNat ||| FormatNegativeFixInt) % 256 = (v % 256).toNat from hbb.2]
        have hp := negfix_pred (v % 256).toNat (by omega) (by omega)
        have hval : toSigned 8 (v % 256).toNat = v := by
          rw [toSigned, if_neg (by norm_num; omega)]
          omega
        simp [Decoder.ReadInt64, NewDataReader, DataReader.GetUint8,
          DataReader.checkBufferSize, U32, List.replicate, List.getD,
          Nat.mod_eq_of_lt (show (v % 256).toNat < 256 by omega), hp.1, hp.2, hval]
      · by_cases hC : v ≤ 127 ∧ -128 ≤ v
        · rw [Encoder.WriteInt64, if_neg hA, if_neg hB2, if_pos hC]
          rw [show freshReader 9 = ⟨List.replicate 9 0, 0, none⟩ from rfl]
          rw [SetUint8_ok _ 0 _ (by simp) (by simp [U32])]
          rw [SetInt8_ok _ 1 _ (by simp) (by simp [U32])]
          have hval : toSigned 8 ((v % 256).toNat % 256) = v := by
            have h8 : (v % 256).toNat % 256 = (v % (2 ^ 8)).toNat := by omega
            rw [h8, toSigned_emod 8 (by norm_num) v (by norm_num; omega) (by norm_num; omega)]
          simp [Decoder.ReadInt64, NewDataReader, DataReader.GetUint8, DataReader.GetInt8,
            DataReader.checkBufferSize, U32, List.replicate, List.getD, FormatInt8,
            (show isFixedInt 208 = false from by decide),
            (show isNegativeFixedInt 208 = false from by decide), hval]
        · by_cases hD : v ≤ 32767 ∧ -32768 ≤ v
          · rw [Encoder.WriteInt64, if_neg hA, if_neg hB2, if_neg hC, if_pos ⟨by omega, by omega⟩]
            rw [show freshReader 9 = ⟨List.replicate 9 0, 0, none⟩ from rfl]
            rw [SetUint8_ok _ 0 _ (by simp) (by simp [U32])]
            rw [SetInt16_ok _ 1 _ (by simp) (by simp [U32])]
            set m := (v % (2 ^ 16)).toNat with hm
            set B := writeAt ((List.replicate 9 0).set 0 (FormatInt16 % 256)) 1 (bePut 2 m) with hB
            have hBlen : B.length = 9 := by rw [hB, writeAt_length]; simp
            have hB0 : B.getD 0 0 = FormatInt16 := by
              rw [hB, getD_writeAt_lt _ _ _ _ (by omega)]
              simp [List.getD, FormatInt16]
            have hget : DataReader.GetUint8 (NewDataReader B) = (.ok FormatInt16, ⟨B, 1, none⟩) := by
              rw [show NewDataReader B = ⟨B, 0, none⟩ from rfl,
                GetUint8_ok _ 0 (by omega) (by rw [hBlen]; norm_num [U32])]
              rw [hB0]
              norm_num [FormatInt16]
            have hrb : readBytesAt B 1 2 = bePut 2 m := by
              rw [hB]
              have hx := readBytesAt_writeAt (bePut 2 m)
                ((List.replicate 9 0).set 0 (FormatInt16 % 256)) 1 (by simp [bePut_length])
              rwa [bePut_length] at hx
            have hread : DataReader.GetInt16 ⟨B, 1, none⟩ = (.ok v, ⟨B, 3, none⟩) := by
              rw [GetInt16_ok _ 1 (by omega) (by rw [hBlen]; norm_num [U32])]
              rw [hrb, beVal_bePut]
              have hmlt : m % 256 ^ 2 = m := Nat.mod_eq_of_lt (by omega)
              rw [hmlt, hm, toSigned_emod 16 (by norm_num) v (by norm_num; omega) (by norm_num; omega)]
            rw [Decoder.ReadInt64]
            simp only [hget, hread,
              (show isFixedInt FormatInt16 = false from by decide),
              (show isNegativeFixedInt FormatInt16 = false from by decide),
              (show ¬ (FormatInt16 = FormatInt8) from by decide),
              Bool.false_eq_true, Bool.or_self, if_false, if_true, eq_self_iff_true]
          · by_cases hE : v ≤ 2147483647 ∧ -2147483648 ≤ v
            · rw [Encoder.WriteInt64, if_neg hA, if_neg hB2, if_neg hC, if_neg hD, if_pos ⟨by omega, by omega⟩]
              rw [show freshReader 9 = ⟨List.replicate 9 0, 0, none⟩ from rfl]
              rw [SetUint8_ok _ 0 _ (by simp) (by simp [U32])]
              rw [SetInt32_ok _ 1 _ (by simp) (by simp [U32])]
              set m := (v % (2 ^ 32)).toNat with hm
              set B := writeAt ((List.replicate 9 0).set 0 (FormatInt32 % 256)) 1 (bePut 4 m) with hB
              have hBlen : B.length = 9 := by rw [hB, writeAt_length]; simp
              have hB0 : B.getD 0 0 = FormatInt32 := by
                rw [hB, getD_writeAt_lt _ _ _ _ (by omega)]
                simp [List.getD, FormatInt32]
              have hget : DataReader.GetUint8 (NewDataReader B) = (.ok FormatInt32, ⟨B, 1, none⟩) := by
                rw [show NewDataReader B = ⟨B, 0, none⟩ from rfl,
                  GetUint8_ok _ 0 (by omega) (by rw [hBlen]; norm_num [U32])]
                rw [hB0]
                norm_num [FormatInt32]
              have hrb : readBytesAt B 1 4 = bePut 4 m := by
                rw [hB]
                have hx := readBytesAt_writeAt (bePut 4 m)
                  ((List.replicate 9 0).set 0 (FormatInt32 % 256)) 1 (by simp [bePut_length])
                rwa [bePut_length] at hx
              have hread : DataReader.GetInt32 ⟨B, 1, none⟩ = (.ok v, ⟨B, 5, none⟩) := by
                rw [GetInt32_ok _ 1 (by omega) (by rw [hBlen]; norm_num [U32])]
                rw [hrb, beVal_bePut]
                have hmlt : m % 256 ^ 4 = m := Nat.mod_eq_of_lt (by omega)
                rw [hmlt, hm, toSigned_emod 32 (by norm_num) v (by norm_num; omega) (by norm_num; omega)]
              rw [Decoder.ReadInt64]
              simp only [hget, hread,
                (show isFixedInt FormatInt32 = false from by decide),
                (show isNegativeFixedInt FormatInt32 = false from by decide),
                (show ¬ (FormatInt32 = FormatInt8) from by decide),
                (show ¬ (FormatInt32 = FormatInt16) from by decide),
                Bool.false_eq_true, Bool.or_self, if_false, if_true, eq_self_iff_true]
            · rw [Encoder.WriteInt64, if_neg hA, if_neg hB2, if_neg hC, if_neg hD, if_neg hE]
              rw [show freshReader 9 = ⟨List.replicate 9 0, 0, none⟩ from rfl]
              rw [SetUint8_ok _ 0 _ (by simp) (by simp [U32])]
              rw [SetInt64_ok _ 1 _ (by simp) (by simp [U32])]
              set m := (v % (2 ^ 64)).toNat with hm
              set B := writeAt ((List.replicate 9 0).set 0 (FormatInt64 % 256)) 1 (bePut 8 m) with hB
              have hBlen : B.length = 9 := by rw [hB, writeAt_length]; simp
              have hB0 : B.getD 0 0 = FormatInt64 := by
                rw [hB, getD_writeAt_lt _ _ _ _ (by omega)]
                simp [List.getD, FormatInt64]
              have hget : DataReader.GetUint8 (NewDataReader B) = (.ok FormatInt64, ⟨B, 1, none⟩) := by
                rw [show NewDataReader B = ⟨B, 0, none⟩ from rfl,
                  GetUint8_ok _ 0 (by omega) (by rw [hBlen]; norm_num [U32])]
                rw [hB0]
                norm_num [FormatInt64]
              have hrb : readBytesAt B 1 8 = bePut 8 m := by
                rw [hB]
                have hx := readBytesAt_writeAt (bePut 8 m)
                  ((List.replicate 9 0).set 0 (FormatInt64 % 256)) 1 (by simp [bePut_length])
                rwa [bePut_length] at hx
              have hread : DataReader.GetInt64 ⟨B, 1, none⟩ = (.ok v, ⟨B, 9, none⟩) := by
                rw [GetInt64_ok _ 1 (by omega) (by rw [hBlen]; norm_num [U32])]
                rw [hrb, beVal_bePut]
                have hmlt : m % 256 ^ 8 = m := Nat.mod_eq_of_lt (by omega)
                rw [hmlt, hm, toSigned_emod 64 (by norm_num) v (by norm_num; omega) (by norm_num; omega)]
              rw [Decoder.ReadInt64]
              simp only [hget, hread,
                (show isFixedInt FormatInt64 = false from by decide),
                (show isNegativeFixedInt FormatInt64 = false from by decide),
                (show ¬ (FormatInt64 = FormatInt8) from by decide),
                (show ¬ (FormatInt64 = FormatInt16) from by decide),
                (show ¬ (FormatInt64 = FormatInt32) from by decide),
                Bool.false_eq_true, Bool.or_self, if_false, if_true, eq_self_iff_true]

  · intro hu
    by_cases hU1 : u < 2 ^ 7
    · rw [Encoder.WriteUint64, if_pos hU1]
      rw [show freshReader 9 = ⟨List.replicate 9 0, 0, none⟩ from rfl]
      rw [SetUint8_ok _ 0 _ (by simp) (by simp [U32])]
      simp [Decoder.ReadUint64, NewDataReader, DataReader.GetUint8,
        DataReader.checkBufferSize, U32, List.replicate, List.getD,
        Nat.mod_eq_of_lt (show u < 256 by omega),
        (isFixedInt_iff u).mpr (by omega)]
    · by_cases hU2 : u ≤ 255
      · rw [Encoder.WriteUint64, if_neg hU1, if_pos hU2]
        rw [show freshReader 9 = ⟨List.replicate 9 0, 0, none⟩ from rfl]
        rw [SetUint8_ok _ 0 _ (by simp) (by simp [U32])]
        rw [SetUint8_ok _ 1 _ (by simp) (by simp [U32])]
        simp [Decoder.ReadUint64, NewDataReader, DataReader.GetUint8,
          DataReader.checkBufferSize, U32, List.replicate, List.getD, FormatUint8,
          (show isFixedInt 204 = false from by decide),
          (show isNegativeFixedInt 204 = false from by decide),
          Nat.mod_eq_of_lt (show u < 256 by omega)]
      · by_cases hU3 : u ≤ 65535
        · rw [Encoder.WriteUint64, if_neg hU1, if_neg hU2, if_pos (by omega)]
          rw [show freshReader 9 = ⟨List.replicate 9 0, 0, none⟩ from rfl]
          rw [SetUint8_ok _ 0 _ (by simp) (by simp [U32])]
          rw [SetUint16_ok _ 1 _ (by simp) (by simp [U32])]
          set B := writeAt ((List.replicate 9 0).set 0 (FormatUint16 % 256)) 1 (bePut 2 u) with hB
          have hBlen : B.length = 9 := by rw [hB, writeAt_length]; simp
          have hB0 : B.getD 0 0 = FormatUint16 := by
            rw [hB, getD_writeAt_lt _ _ _ _ (by omega)]
            simp [List.getD, FormatUint16]
          have hget : DataReader.GetUint8 (NewDataReader B) = (.ok FormatUint16, ⟨B, 1, none⟩) := by
            rw [show NewDataReader B = ⟨B, 0, none⟩ from rfl,
              GetUint8_ok _ 0 (by omega) (by rw [hBlen]; norm_num [U32])]
            rw [hB0]
            norm_num [FormatUint16]
          have hrb : readBytesAt B 1 2 = bePut 2 u := by
            rw [hB]
            have hx := readBytesAt_writeAt (bePut 2 u)
              ((List.replicate 9 0).set 0 (FormatUint16 % 256)) 1 (by simp [bePut_length])
            rwa [bePut_length] at hx
          have hread : DataReader.GetUint16 ⟨B, 1, none⟩ = (.ok u, ⟨B, 3, none⟩) := by
            rw [GetUint16_ok _ 1 (by omega) (by rw [hBlen]; norm_num [U32])]
            rw [hrb, beVal_bePut]
            norm_num
            omega
          rw [Decoder.ReadUint64]
          simp only [hget, hread,
            (show isFixedInt FormatUint16 = false from by decide),
            (show isNegativeFixedInt FormatUint16 = false from by decide),
            (show ¬ (FormatUint16 = FormatUint8) from by decide),
            Bool.false_eq_true, if_false, if_true, eq_self_iff_true]
        · by_cases hU4 : u ≤ 4294967295
          · rw [Encoder.WriteUint64, if_neg hU1, if_neg hU2, if_neg hU3, if_pos (by omega)]
            rw [show freshReader 9 = ⟨List.replicate 9 0, 0, none⟩ from rfl]
            rw [SetUint8_ok _ 0 _ (by simp) (by simp [U32])]
            rw [SetUint32_ok _ 1 _ (by simp) (by simp [U32])]
            set B := writeAt ((List.replicate 9 0).set 0 (FormatUint32 % 256)) 1 (bePut 4 u) with hB
            have hBlen : B.length = 9 := by rw [hB, writeAt_length]; simp
            have hB0 : B.getD 0 0 = FormatUint32 := by
              rw [hB, getD_writeAt_lt _ _ _ _ (by omega)]
              simp [List.getD, FormatUint32]
            have hget : DataReader.GetUint8 (NewDataReader B) = (.ok FormatUint32, ⟨B, 1, none⟩) := by
              rw [show NewDataReader B = ⟨B, 0, none⟩ from rfl,
                GetUint8_ok _ 0 (by omega) (by rw [hBlen]; norm_num [U32])]
              rw [hB0]
              norm_num [FormatUint32]
            have hrb : readBytesAt B 1 4 = bePut 4 u := by
              rw [hB]
              have hx := readBytesAt_writeAt (bePut 4 u)
                ((List.replicate 9 0).set 0 (FormatUint32 % 256)) 1 (by simp [bePut_length])
              rwa [bePut_length] at hx
            have hread : DataReader.GetUint32 ⟨B, 1, none⟩ = (.ok u, ⟨B, 5, none⟩) := by
              rw [GetUint32_ok _ 1 (by omega) (by rw [hBlen]; norm_num [U32])]
              rw [hrb, beVal_bePut]
              norm_num
              omega
            rw [Decoder.ReadUint64]
            simp only [hget, hread,
              (show isFixedInt FormatUint32 = false from by decide),
              (show isNegativeFixedInt FormatUint32 = false from by decide),
              (show ¬ (FormatUint32 = FormatUint8) from by decide),
              (show ¬ (FormatUint32 = FormatUint16) from by decide),
              Bool.false_eq_true, if_false, if_true, eq_self_iff_true]
          · rw [Encoder.WriteUint64, if_neg hU1, if_neg hU2, if_neg hU3, if_neg hU4]
            rw [show freshReader 9 = ⟨List.replicate 9 0, 0, none⟩ from rfl]
            rw [SetUint8_ok _ 0 _ (by simp) (by simp [U32])]
            rw [SetUint64_ok _ 1 _ (by simp) (by simp [U32])]
            set B := writeAt ((List.replicate 9 0).set 0 (FormatUint64 % 256)) 1 (bePut 8 u) with hB
            have hBlen : B.length = 9 := by rw [hB, writeAt_length]; simp
            have hB0 : B.getD 0 0 = FormatUint64 := by
              rw [hB, getD_writeAt_lt _ _ _ _ (by omega)]
              simp [List.getD, FormatUint64]
            have hget : DataReader.GetUint8 (NewDataReader B) = (.ok FormatUint64, ⟨B, 1, none⟩) := by
              rw [show NewDataReader B = ⟨B, 0, none⟩ from rfl,
                GetUint8_ok _ 0 (by omega) (by rw [hBlen]; norm_num [U32])]
              rw [hB0]
              norm_num [FormatUint64]
            have hrb : readBytesAt B 1 8 = bePut 8 u := by
              rw [hB]
              have hx := readBytesAt_writeAt (bePut 8 u)
                ((List.replicate 9 0).set 0 (FormatUint64 % 256)) 1 (by simp [bePut_length])
              rwa [bePut_length] at hx
            have hread : DataReader.GetUint64 ⟨B, 1, none⟩ = (.ok u, ⟨B, 9, none⟩) := by
              rw [GetUint64_ok _ 1 (by omega) (by rw [hBlen]; norm_num [U32])]
              rw [hrb, beVal_bePut]
              norm_num
              omega
            rw [Decoder.ReadUint64]
            simp only [hget, hread,
              (show isFixedInt FormatUint64 = false from by decide),
              (show isNegativeFixedInt FormatUint64 = false from by decide),
              (show ¬ (FormatUint64 = FormatUint8) from by decide),
              (show ¬ (FormatUint64 = FormatUint16) from by decide),
              (show ¬ (FormatUint64 = FormatUint32) from by decide),
              Bool.false_eq_true, if_false, if_true, eq_self_iff_true]

  · cases b <;> decide
  · intro hlen
    by_cases hS1 : s.length < 32
    · rw [Encoder.WriteString]
      rw [show freshReader (5 + s.length) = ⟨List.replicate (5 + s.length) 0, 0, none⟩ from rfl]
      rw [show s.length % U32 = s.length from Nat.mod_eq_of_lt (by omega)]
      rw [Encoder.writeStringLength, if_pos hS1]
      rw [SetUint8_ok _ 0 _ (by simp only [List.length_replicate]; omega)
        (by simp only [List.length_replicate]; omega)]
      rw [SetBytes_ok _ 1 s
        (by simp only [List.length_set, List.length_replicate]; omega)
        (by simp only [List.length_set, List.length_replicate]; omega)]
      have hfs := fixstr_facts s.length (by omega)
      rw [hfs.1]
      set B := writeAt ((List.replicate (5 + s.length) 0).set 0 (s.length + 160)) 1 s with hB
      have hBlen : B.length = 5 + s.length := by rw [hB, writeAt_length]; simp
      have hB0 : B.getD 0 0 = s.length + 160 := by
        rw [hB, getD_writeAt_lt _ _ _ _ (by omega)]
        simp [List.getD]
      have hget : DataReader.GetUint8 (NewDataReader B)
          = (.ok (s.length + 160), ⟨B, 1, none⟩) := by
        rw [show NewDataReader B = ⟨B, 0, none⟩ from rfl,
          GetUint8_ok _ 0 (by omega) (by omega)]
        rw [hB0, Nat.mod_eq_of_lt (by omega)]
      have hbytes : DataReader.GetBytes ⟨B, 1, none⟩ s.length
          = (.ok s, ⟨B, 1 + s.length, none⟩) := by
        rw [GetBytes_ok _ 1 s.length (by omega) (by omega)]
        rw [hB, readBytesAt_writeAt s _ 1
          (by simp only [List.length_set, List.length_replicate]; omega)]
      rw [Decoder.ReadString, Decoder.readStringLength]
      simp only [hget, hbytes, Decoder.readString, hfs.2.1, hfs.2.2,
        if_true, eq_self_iff_true]
    · by_cases hS2 : s.length ≤ 255
      · rw [Encoder.WriteString]
        rw [show freshReader (5 + s.length) = ⟨List.replicate (5 + s.length) 0, 0, none⟩ from rfl]
        rw [show s.length % U32 = s.length from Nat.mod_eq_of_lt (by omega)]
        rw [Encoder.writeStringLength, if_neg hS1, if_pos hS2]
        rw [SetUint8_ok _ 0 _ (by simp only [List.length_replicate]; omega)
          (by simp only [List.length_replicate]; omega)]
        rw [SetUint8_ok _ 1 _ (by simp only [List.length_set, List.length_replicate]; omega)
          (by simp only [List.length_set, List.length_replicate]; omega)]
        rw [SetBytes_ok _ 2 s
          (by simp only [List.length_set, List.length_replicate]; omega)
          (by simp only [List.length_set, List.length_replicate]; omega)]
        set B := ((List.replicate (5 + s.length) 0).set 0 (FormatString8 % 256)).set 1
          (s.length % 256) with hB
        set BB := writeAt B 2 s with hBB
        have hBlen : BB.length = 5 + s.length := by rw [hBB, writeAt_length, hB]; simp
        have hB0 : BB.getD 0 0 = FormatString8 := by
          rw [hBB, getD_writeAt_lt _ _ _ _ (by omega), hB]
          rw [List.getD_eq_getElem?_getD, List.getElem?_set_ne (by omega),
            List.getElem?_set_self (by simp)]
          norm_num [FormatString8]
        have hB1 : BB.getD 1 0 = s.length := by
          rw [hBB, getD_writeAt_lt _ _ _ _ (by omega), hB]
          rw [List.getD_eq_getElem?_getD, List.getElem?_set_self (by simp; omega)]
          simp
          omega
        have hget : DataReader.GetUint8 (NewDataReader BB)
            = (.ok FormatString8, ⟨BB, 1, none⟩) := by
          rw [show NewDataReader BB = ⟨BB, 0, none⟩ from rfl,
            GetUint8_ok _ 0 (by omega) (by omega)]
          rw [hB0]
          norm_num [FormatString8]
        have hget2 : DataReader.GetUint8 ⟨BB, 1, none⟩
            = (.ok s.length, ⟨BB, 2, none⟩) := by
          rw [GetUint8_ok _ 1 (by omega) (by omega)]
          rw [hB1, Nat.mod_eq_of_lt (by omega)]
        have hbytes : DataReader.GetBytes ⟨BB, 2, none⟩ s.length
            = (.ok s, ⟨BB, 2 + s.length, none⟩) := by
          rw [GetBytes_ok _ 2 s.length (by omega) (by omega)]
          rw [hBB, readBytesAt_writeAt s _ 2
            (by rw [hB]; simp only [List.length_set, List.length_replicate]; omega)]
        rw [Decoder.ReadString, Decoder.readStringLength]
        simp only [hget, hget2, hbytes, Decoder.readString,
          (show isFixedString FormatString8 = false from by decide),
          (show isFixedArray FormatString8 = false from by decide),
          Bool.false_eq_true, if_false, if_true, eq_self_iff_true]
      · by_cases hS3 : s.length ≤ 65535
        · rw [Encoder.WriteString]
          rw [show freshReader (5 + s.length) = ⟨List.replicate (5 + s.length) 0, 0, none⟩ from rfl]
          rw [show s.length % U32 = s.length from Nat.mod_eq_of_lt (by omega)]
          rw [Encoder.writeStringLength, if_neg hS1, if_neg hS2, if_pos hS3]
          rw [SetUint8_ok _ 0 _ (by simp only [List.length_replicate]; omega)
            (by simp only [List.length_replicate]; omega)]
          rw [SetUint16_ok _ 1 _ (by simp only [List.length_set, List.length_replicate]; omega)
            (by simp only [List.length_set, List.length_replicate]; omega)]
          rw [SetBytes_ok _ 3 s
            (by simp only [writeAt_length, List.length_set, List.length_replicate]; omega)
            (by simp only [writeAt_length, List.length_set, List.length_replicate]; omega)]
          set B1 := writeAt ((List.replicate (5 + s.length) 0).set 0 (FormatString16 % 256)) 1
            (bePut 2 s.length) with hB1
          set B := writeAt B1 3 s with hB
          have hB1len : B1.length = 5 + s.length := by rw [hB1, writeAt_length]; simp
          have hBlen : B.length = 5 + s.length := by rw [hB, writeAt_length, hB1len]
          have hB0 : B.getD 0 0 = FormatString16 := by
            rw [hB, getD_writeAt_lt _ _ _ _ (by omega), hB1, getD_writeAt_lt _ _ _ _ (by omega)]
            simp [List.getD, FormatString16]
          have hget : DataReader.GetUint8 (NewDataReader B) = (.ok FormatString16, ⟨B, 1, none⟩) := by
            rw [show NewDataReader B = ⟨B, 0, none⟩ from rfl,
              GetUint8_ok _ 0 (by omega) (by omega)]
            rw [hB0]
            norm_num [FormatString16]
          have hrb : readBytesAt B 1 2 = bePut 2 s.length := by
            rw [hB, readBytesAt_writeAt_ge s B1 1 2 3 (by omega), hB1]
            have hx := readBytesAt_writeAt (bePut 2 s.length)
              ((List.replicate (5 + s.length) 0).set 0 (FormatString16 % 256)) 1
              (by simp only [bePut_length, List.length_set, List.length_replicate]; omega)
            rwa [bePut_length] at hx
          have hread : DataReader.GetUint16 ⟨B, 1, none⟩
              = (.ok s.length, ⟨B, 3, none⟩) := by
            rw [GetUint16_ok _ 1 (by omega) (by omega)]
            rw [hrb, beVal_bePut]
            norm_num
            omega
          have hbytes : DataReader.GetBytes ⟨B, 3, none⟩ s.length
              = (.ok s, ⟨B, 3 + s.length, none⟩) := by
            rw [GetBytes_ok _ 3 s.length (by omega) (by omega)]
            rw [hB, readBytesAt_writeAt s B1 3 (by omega)]
          rw [Decoder.ReadString, Decoder.readStringLength]
          simp only [hget, hread, hbytes, Decoder.readString,
            (show isFixedString FormatString16 = false from by decide),
            (show isFixedArray FormatString16 = false from by decide),
            (show ¬ (FormatString16 = FormatString8) from by decide),
            Bool.false_eq_true, if_false, if_true, eq_self_iff_true,
            true_or, or_true, false_or, or_false]
        · rw [Encoder.WriteString]
          rw [show freshReader (5 + s.length) = ⟨List.replicate (5 + s.length) 0, 0, none⟩ from rfl]
          rw [show s.length % U32 = s.length from Nat.mod_eq_of_lt (by omega)]
          rw [Encoder.writeStringLength, if_neg hS1, if_neg hS2, if_neg hS3]
          rw [SetUint8_ok _ 0 _ (by simp only [List.length_replicate]; omega)
            (by simp only [List.length_replicate]; omega)]
          rw [SetUint32_ok _ 1 _ (by simp only [List.length_set, List.length_replicate]; omega)
            (by simp only [List.length_set, List.length_replicate]; omega)]
          rw [SetBytes_ok _ 5 s
            (by simp only [writeAt_length, List.length_set, List.length_replicate]; omega)
            (by simp only [writeAt_length, List.length_set, List.length_replicate]; omega)]
          set B1 := writeAt ((List.replicate (5 + s.length) 0).set 0 (FormatString32 % 256)) 1
            (bePut 4 s.length) with hB1
          set B := writeAt B1 5 s with hB
          have hB1len : B1.length = 5 + s.length := by rw [hB1, writeAt_length]; simp
          have hBlen : B.length = 5 + s.length := by rw [hB, writeAt_length, hB1len]
          have hB0 : B.getD 0 0 = FormatString32 := by
            rw [hB, getD_writeAt_lt _ _ _ _ (by omega), hB1, getD_writeAt_lt _ _ _ _ (by omega)]
            simp [List.getD, FormatString32]
          have hget : DataReader.GetUint8 (NewDataReader B) = (.ok FormatString32, ⟨B, 1, none⟩) := by
            rw [show NewDataReader B = ⟨B, 0, none⟩ from rfl,
              GetUint8_ok _ 0 (by omega) (by omega)]
            rw [hB0]
            norm_num [FormatString32]
          have hrb : readBytesAt B 1 4 = bePut 4 s.length := by
            rw [hB, readBytesAt_writeAt_ge s B1 1 4 5 (by omega), hB1]
            have hx := readBytesAt_writeAt (bePut 4 s.length)
              ((List.replicate (5 + s.length) 0).set 0 (FormatString32 % 256)) 1
              (by simp only [bePut_length, List.length_set, List.length_replicate]; omega)
            rwa [bePut_length] at hx
          have hread : DataReader.GetUint32 ⟨B, 1, none⟩
              = (.ok s.length, ⟨B, 5, none⟩) := by
            rw [GetUint32_ok _ 1 (by omega) (by omega)]
            rw [hrb, beVal_bePut]
            have hsl : s.length < 4294967296 := by
              have hU : U32 = 4294967296 := by norm_num [U32]
              omega
            norm_num
            omega
          have hbytes : DataReader.GetBytes ⟨B, 5, none⟩ s.length
              = (.ok s, ⟨B, 5 + s.length, none⟩) := by
            rw [GetBytes_ok _ 5 s.length (by omega) (by omega)]
            rw [hB, readBytesAt_writeAt s B1 5 (by omega)]
          rw [Decoder.ReadString, Decoder.readStringLength]
          simp only [hget, hread, hbytes, Decoder.readString,
            (show isFixedString FormatString32 = false from by decide),
            (show isFixedArray FormatString32 = false from by decide),
            (show ¬ (FormatString32 = FormatString8) from by decide),
            (show ¬ (FormatString32 = FormatString16) from by decide),
            (show ¬ (FormatString32 = FormatArray16) from by decide),
            Bool.false_eq_true, if_false, if_true, eq_self_iff_true,
            true_or, or_true, false_or, or_false]
  · intro hf
    rw [Encoder.WriteFloat32]
    rw [show freshReader 5 = ⟨List.replicate 5 0, 0, none⟩ from rfl]
    rw [SetUint8_ok _ 0 _ (by simp) (by simp [U32])]
    rw [SetFloat32_ok _ 1 _ (by simp) (by simp [U32])]
    set B := writeAt ((List.replicate 5 0).set 0 (FormatFloat32 % 256)) 1 (bePut 4 f32) with hB
    have hBlen : B.length = 5 := by rw [hB, writeAt_length]; simp
    have hB0 : B.getD 0 0 = FormatFloat32 := by
      rw [hB, getD_writeAt_lt _ _ _ _ (by omega)]
      simp [List.getD, FormatFloat32]
    have hget : DataReader.GetUint8 (NewDataReader B) = (.ok FormatFloat32, ⟨B, 1, none⟩) := by
      rw [show NewDataReader B = ⟨B, 0, none⟩ from rfl,
        GetUint8_ok _ 0 (by omega) (by rw [hBlen]; norm_num [U32])]
      rw [hB0]
      norm_num [FormatFloat32]
    have hrb : readBytesAt B 1 4 = bePut 4 f32 := by
      rw [hB]
      have hx := readBytesAt_writeAt (bePut 4 f32)
        ((List.replicate 5 0).set 0 (FormatFloat32 % 256)) 1 (by simp [bePut_length])
      rwa [bePut_length] at hx
    have hread : DataReader.GetFloat32 ⟨B, 1, none⟩ = (.ok f32, ⟨B, 5, none⟩) := by
      rw [GetFloat32_ok _ 1 (by omega) (by rw [hBlen]; norm_num [U32])]
      rw [hrb, beVal_bePut]
      norm_num
      omega
    rw [Decoder.ReadFloat32]
    simp only [hget, hread, if_true, eq_self_iff_true]
  · intro hf
    rw [Encoder.WriteFloat64]
    rw [show freshReader 9 = ⟨List.replicate 9 0, 0, none⟩ from rfl]
    rw [SetUint8_ok _ 0 _ (by simp) (by simp [U32])]
    rw [SetFloat64_ok _ 1 _ (by simp) (by simp [U32])]
    set B := writeAt ((List.replicate 9 0).set 0 (FormatFloat64 % 256)) 1 (bePut 8 f64) with hB
    have hBlen : B.length = 9 := by rw [hB, writeAt_length]; simp
    have hB0 : B.getD 0 0 = FormatFloat64 := by
      rw [hB, getD_writeAt_lt _ _ _ _ (by omega)]
      simp [List.getD, FormatFloat64]
    have hget : DataReader.GetUint8 (NewDataReader B) = (.ok FormatFloat64, ⟨B, 1, none⟩) := by
      rw [show NewDataReader B = ⟨B, 0, none⟩ from rfl,
        GetUint8_ok _ 0 (by omega) (by rw [hBlen]; norm_num [U32])]
      rw [hB0]
      norm_num [FormatFloat64]
    have hrb : readBytesAt B 1 8 = bePut 8 f64 := by
      rw [hB]
      have hx := readBytesAt_writeAt (bePut 8 f64)
        ((List.replicate 9 0).set 0 (FormatFloat64 % 256)) 1 (by simp [bePut_length])
      rwa [bePut_length] at hx
    have hread : DataReader.GetFloat64 ⟨B, 1, none⟩ = (.ok f64, ⟨B, 9, none⟩) := by
      rw [GetFloat64_ok _ 1 (by omega) (by rw [hBlen]; norm_num [U32])]
      rw [hrb, beVal_bePut]
      norm_num
      omega
    rw [Decoder.ReadFloat64]
    simp only [hget, hread, if_true, eq_self_iff_true]

/-- Witness for C3 at concrete values: -1000 round-trips through int16,
70000 through uint32, true through the bool tag, [1,2,3] through fixstr,
and the bit patterns 5 and 7 through float32/float64. -/
theorem C3_roundtrip_identity_witness :
    (Decoder.ReadInt64 (NewDataReader
      (Encoder.WriteInt64 (freshReader 9) (-1000)).buffer)).1 = .ok (-1000) ∧
    (Decoder.ReadUint64 (NewDataReader
      (Encoder.WriteUint64 (freshReader 9) 70000).buffer)).1 = .ok 70000 ∧
    (Decoder.ReadBool (NewDataReader
      (Encoder.WriteBool (freshReader 1) true).buffer)).1 = .ok true ∧
    (Decoder.ReadString (NewDataReader
      (Encoder.WriteString (freshReader (5 + [1, 2, 3].length)) [1, 2, 3]).buffer)).1
      = .ok [1, 2, 3] ∧
    (Decoder.ReadFloat32 (NewDataReader
      (Encoder.WriteFloat32 (freshReader 5) 5).buffer)).1 = .ok 5 ∧
    (Decoder.ReadFloat64 (NewDataReader
      (Encoder.WriteFloat64 (freshReader 9) 7).buffer)).1 = .ok 7 := by
  have h := C3_roundtrip_identity (-1000) 70000 true [1, 2, 3] 5 7
  exact ⟨h.1 (by norm_num) (by norm_num), h.2.1 (by norm_num), h.2.2.1,
    h.2.2.2.1 (by norm_num [U32]), h.2.2.2.2.1 (by norm_num),
    h.2.2.2.2.2 (by norm_num)⟩

end Msgpack
